import Mathlib

/-!
# Verification of the AfyaBot / BEDC WhatsApp support bot core

Shallow embedding of the repository's core logic:

* `services/ai_service.py` — email masking, account-number extraction, the
  confirmation-gated flow controller `generate_response`;
* `utils/data_manager.py`  — `check_billing_status` (the database is modelled
  as a lookup function `Str → Option Customer`);
* `utils/session_manager.py` — the in-memory session store and its
  timeout / paid-session / freshly-reset logic;
* `message_processor.py` — routing and the top-level error boundary;
* `handlers/ai_handler.py` — the conversation-history bounding logic.

Modelling conventions:

* Python strings are `List Char` (`Str`); `str.lower`/`strip` are mapped
  per-character (ASCII-faithful).
* Timestamps are integers (`ℤ`, seconds); each Python operation that calls
  `datetime.now()` receives the current time `now` as an explicit argument.
* Monetary amounts (`bill_amount`, `nerc_cap`) are natural numbers of naira;
  Python converts the DB values with `float(...)` and formats them with
  `"{:,}"`, which for integral amounts differs only by a trailing `.0`,
  immaterial to the claims proved here.
* External collaborators (the Azure LLM, the affirmative/negative LLM
  classifiers, the customer database, `save_fault_report`) are oracle fields
  of the `AIService` structure; when `ai_enabled = false` the code's own
  deterministic fallbacks are used, exactly as in the source.
* Uncaught Python exceptions (the `KeyError` reachable in the
  fault-confirmation branch of `generate_response`) are modelled by
  `Except Unit`.
-/

/-- Python strings, one character per list element. -/
abbrev Str := List Char

/-- `str.lower()` (ASCII-faithful). -/
def pyLower (s : Str) : Str := s.map Char.toLower

/-- `str.strip()`: remove leading and trailing whitespace. -/
def pyStrip (s : Str) : Str :=
  ((s.dropWhile Char.isWhitespace).reverse.dropWhile Char.isWhitespace).reverse

/-- Boolean character-disequality predicate, used for Python `split` scans. -/
def neChar (c : Char) : Char → Bool := fun x => x ≠ c

/-- Python `needle in haystack` substring test. -/
def containsSub (needle hay : Str) : Bool := decide (needle <:+: hay)

/-- The four-character mask used for the local part of an email. -/
def starsLocal : Str := '*' :: '*' :: '*' :: '*' :: []

/-- The three-character mask used for the domain of an email. -/
def starsDomain : Str := '*' :: '*' :: '*' :: []

/-- `AIService.mask_email`, masking of one part: parts of length ≤ 4 are kept,
longer parts are replaced by first 2 + mask + last 2 characters
(`part[:2] + mask + part[-2:]`). -/
def maskTail (mask : Str) (part : Str) : Str :=
  if part.length ≤ 4 then part
  else part.take 2 ++ mask ++ part.drop (part.length - 2)

/-- `AIService.mask_email`, reassembly after the split on the first `@`:
`domain_parts.rsplit('.', 1)` when a dot is present, then masking of local
part and domain, keeping the top-level suffix; `if tld:` guards the final
`.tld`. -/
def maskedAssemble (lpart domain_parts : Str) : Str :=
  if '.' ∈ domain_parts then
    let dom := ((domain_parts.reverse.dropWhile (neChar '.')).drop 1).reverse
    let tld := (domain_parts.reverse.takeWhile (neChar '.')).reverse
    if tld = [] then maskTail starsLocal lpart ++ '@' :: maskTail starsDomain dom
    else maskTail starsLocal lpart ++ '@' :: (maskTail starsDomain dom ++ '.' :: tld)
  else maskTail starsLocal lpart ++ '@' :: maskTail starsDomain domain_parts

/-- `AIService.mask_email`: input without `@` (or empty) is returned
unchanged; otherwise split at the first `@` (`email.split('@', 1)`) and
reassemble the masked parts. -/
def mask_email (email : Str) : Str :=
  if email = [] ∨ '@' ∉ email then email
  else maskedAssemble (email.takeWhile (neChar '@')) ((email.dropWhile (neChar '@')).drop 1)

/-- `takeWhile` stops exactly at the first element falsifying the predicate. -/
theorem takeWhile_append_stop (p : Char → Bool) (l₁ : Str) (c : Char) (l₂ : Str)
    (h₁ : ∀ x ∈ l₁, p x = true) (h₂ : p c = false) :
    List.takeWhile p (l₁ ++ c :: l₂) = l₁ := by
  induction l₁ with
  | nil => simp [List.takeWhile_cons, h₂]
  | cons a t ih =>
      have ha : p a = true := h₁ a (List.mem_cons_self a t)
      simp [List.takeWhile_cons, ha, ih (fun x hx => h₁ x (List.mem_cons_of_mem a hx))]

/-- `dropWhile` drops exactly up to the first element falsifying the predicate. -/
theorem dropWhile_append_stop (p : Char → Bool) (l₁ : Str) (c : Char) (l₂ : Str)
    (h₁ : ∀ x ∈ l₁, p x = true) (h₂ : p c = false) :
    List.dropWhile p (l₁ ++ c :: l₂) = c :: l₂ := by
  induction l₁ with
  | nil => simp [List.dropWhile_cons, h₂]
  | cons a t ih =>
      have ha : p a = true := h₁ a (List.mem_cons_self a t)
      simp [List.dropWhile_cons, ha, ih (fun x hx => h₁ x (List.mem_cons_of_mem a hx))]

/-- **C3.** `mask_email` behaviour: (1) input without `@` is returned
unchanged; (2) an input of shape `local ++ '@' ++ domain ++ '.' ++ tld`
(first `@`, last `.`) is reassembled as
`maskedLocal ++ '@' ++ maskedDomain ++ '.' ++ tld`, where parts of length
≤ 4 are unmasked and longer parts become first 2 + fixed mask + last 2,
the top-level suffix always unmasked; (3) the three concrete examples of
the specification. -/
theorem C3_mask_email_spec :
    (∀ e : Str, '@' ∉ e → mask_email e = e) ∧
    (∀ lpart dom tld : Str, '@' ∉ lpart → '.' ∉ tld → tld ≠ [] →
      mask_email (lpart ++ '@' :: (dom ++ '.' :: tld)) =
        maskTail starsLocal lpart ++ '@' :: (maskTail starsDomain dom ++ '.' :: tld)) ∧
    mask_email ("johndoe@example.com".toList) = "jo****oe@ex***le.com".toList ∧
    mask_email ("ab@cd.com".toList) = "ab@cd.com".toList ∧
    mask_email ("not-an-email".toList) = "not-an-email".toList := by
  refine ⟨?_, ?_, by decide, by decide, by decide⟩
  · intro e he
    unfold mask_email
    simp [he]
  · intro lpart dom tld hl ht htne
    have hmem : '@' ∈ lpart ++ '@' :: (dom ++ '.' :: tld) := by
      simp
    have htake : List.takeWhile (neChar '@') (lpart ++ '@' :: (dom ++ '.' :: tld)) = lpart := by
      refine takeWhile_append_stop _ _ _ _ (fun x hx => ?_) (by simp [neChar])
      simp only [neChar, decide_eq_true_eq]
      exact fun hEq => hl (hEq ▸ hx)
    have hdrop : List.dropWhile (neChar '@') (lpart ++ '@' :: (dom ++ '.' :: tld)) =
        '@' :: (dom ++ '.' :: tld) := by
      refine dropWhile_append_stop _ _ _ _ (fun x hx => ?_) (by simp [neChar])
      simp only [neChar, decide_eq_true_eq]
      exact fun hEq => hl (hEq ▸ hx)
    have hrev : (dom ++ '.' :: tld).reverse = tld.reverse ++ '.' :: dom.reverse := by
      simp
    have htake2 : List.takeWhile (neChar '.') ((dom ++ '.' :: tld).reverse) = tld.reverse := by
      rw [hrev]
      refine takeWhile_append_stop _ _ _ _ (fun x hx => ?_) (by simp [neChar])
      simp only [neChar, decide_eq_true_eq]
      exact fun hEq => ht (hEq ▸ (List.mem_reverse.mp hx))
    have hdrop2 : List.dropWhile (neChar '.') ((dom ++ '.' :: tld).reverse) =
        '.' :: dom.reverse := by
      rw [hrev]
      refine dropWhile_append_stop _ _ _ _ (fun x hx => ?_) (by simp [neChar])
      simp only [neChar, decide_eq_true_eq]
      exact fun hEq => ht (hEq ▸ (List.mem_reverse.mp hx))
    have hdot : '.' ∈ dom ++ '.' :: tld := by simp
    unfold mask_email
    rw [if_neg (by simp [hmem])]
    rw [htake, hdrop]
    show maskedAssemble lpart (dom ++ '.' :: tld) = _
    unfold maskedAssemble
    rw [if_pos hdot]
    simp only [htake2, hdrop2, List.drop_one, List.tail_cons, List.reverse_reverse]
    rw [if_neg (by simpa using htne)]

/-- Witness for C3: the quantified parts applied at the specification's
concrete example `johndoe@example.com`. -/
theorem C3_mask_email_spec_witness :
    mask_email ("nodothere".toList) = "nodothere".toList ∧
    mask_email ("johndoe".toList ++ '@' :: ("example".toList ++ '.' :: "com".toList)) =
      maskTail starsLocal "johndoe".toList ++
        '@' :: (maskTail starsDomain "example".toList ++ '.' :: "com".toList) := by
  constructor
  · exact C3_mask_email_spec.1 "nodothere".toList (by decide)
  · exact C3_mask_email_spec.2.1 "johndoe".toList "example".toList "com".toList
      (by decide) (by decide) (by decide)

/-- `\w` of the account/email regexes (ASCII): letters, digits, underscore. -/
def isWordChar (c : Char) : Bool := c.isAlphanum || c = '_'

/-- A word boundary `\b` to the left: start of string or a non-word char. -/
def boundaryBefore : Option Char → Bool
  | none => true
  | some c => !isWordChar c

/-- A word boundary `\b` to the right: end of string or a non-word char. -/
def boundaryAfter : Str → Bool
  | [] => true
  | c :: _ => !isWordChar c

/-- Does `\b10\d{4}\b` match at the head of `l` (char before the head is
`prev`)?  Returns the matched token. -/
def accountAtHead (prev : Option Char) (l : Str) : Option Str :=
  match l with
  | c1 :: c0 :: d1 :: d2 :: d3 :: d4 :: rest =>
      if c1 = '1' && c0 = '0' && d1.isDigit && d2.isDigit && d3.isDigit && d4.isDigit
          && boundaryBefore prev && boundaryAfter rest
      then some (c1 :: c0 :: d1 :: d2 :: d3 :: d4 :: [])
      else none
  | _ => none

/-- Leftmost-match scan for `re.search(r'\b(10\d{4})\b', message)`
(`AIService.extract_account_number` past its emptiness guard). -/
def findAccount : Option Char → Str → Option Str
  | _, [] => none
  | prev, c :: rest =>
      match accountAtHead prev (c :: rest) with
      | some tok => some tok
      | none => findAccount (some c) rest

/-- `AIService.extract_account_number`: `None` on empty input, else the
leftmost `\b10\d{4}\b` match. -/
def extract_account_number (message : Str) : Option Str :=
  if message = [] then none else findAccount none message

/-- Does `\b\d{5,6}\b` match at the head of `l`?  Greedy: six digits are
tried before five, each followed by a boundary. -/
def potentialAtHead (prev : Option Char) (l : Str) : Bool :=
  boundaryBefore prev &&
  (match l with
   | a :: b :: c :: d :: e :: rest =>
       (a.isDigit && b.isDigit && c.isDigit && d.isDigit && e.isDigit) &&
       (match rest with
        | f :: rest2 => (f.isDigit && boundaryAfter rest2) || boundaryAfter rest
        | [] => true)
   | _ => false)

/-- Leftmost-match scan for `re.search(r'\b(\d{5,6})\b', user_message)`; the
controller only tests whether a match exists. -/
def hasPotentialAccount : Option Char → Str → Bool
  | _, [] => false
  | prev, c :: rest =>
      potentialAtHead prev (c :: rest) || hasPotentialAccount (some c) rest

/-- `re.match(r'^10\d{4}$', account_number)`: full six-character format
check (the controller re-checks extracted tokens against this). -/
def matchesAccountFormat (a : Str) : Bool :=
  match a with
  | c1 :: c0 :: d1 :: d2 :: d3 :: d4 :: [] =>
      c1 = '1' && c0 = '0' && d1.isDigit && d2.isDigit && d3.isDigit && d4.isDigit
  | _ => false

/-- A token produced by the extraction regex always passes the `^10\d{4}$`
format re-check (the controller's second guard is unreachable). -/
theorem findAccount_format (prev : Option Char) (l : Str) (a : Str)
    (h : findAccount prev l = some a) : matchesAccountFormat a = true := by
  induction l generalizing prev with
  | nil => simp [findAccount] at h
  | cons c rest ih =>
      rw [findAccount] at h
      rcases hh : accountAtHead prev (c :: rest) with _ | tok
      · rw [hh] at h
        exact ih (some c) h
      · rw [hh] at h
        cases h
        unfold accountAtHead at hh
        rcases rest with _ | ⟨c0, rest⟩ <;> simp at hh
        rcases rest with _ | ⟨d1, rest⟩ <;> simp at hh
        rcases rest with _ | ⟨d2, rest⟩ <;> simp at hh
        rcases rest with _ | ⟨d3, rest⟩ <;> simp at hh
        rcases rest with _ | ⟨d4, rest⟩ <;> simp at hh
        obtain ⟨⟨⟨⟨⟨⟨⟨⟨hc1, hc0⟩, hd1⟩, hd2⟩, hd3⟩, hd4⟩, hbb⟩, hba⟩, hlist⟩ := hh
        subst hlist
        simp [matchesAccountFormat, hc1, hc0, hd1, hd2, hd3, hd4]

/-- Character class `[\w\.-]` of the email regex. -/
def isEmailChar (c : Char) : Bool := isWordChar c || c = '.' || c = '-'

/-- Backtracking split of the run after `@`: the rightmost `.` followed by a
word character, paired with the greedy `\w+` run after it. -/
def findLastDotSplit : Str → Option (Str × Str)
  | [] => none
  | c :: rest =>
      match findLastDotSplit rest with
      | some (a, w) => some (c :: a, w)
      | none =>
          if c = '.' && (match rest with | d :: _ => isWordChar d | [] => false)
          then some ([], rest.takeWhile isWordChar)
          else none

/-- Attempt to match `[\w\.-]+@[\w\.-]+\.\w+` at the head of `l`. -/
def emailAtHead (l : Str) : Option Str :=
  let r1 := l.takeWhile isEmailChar
  if r1 = [] then none
  else
    match l.drop r1.length with
    | '@' :: rest =>
        match findLastDotSplit (rest.takeWhile isEmailChar) with
        | some (a, w) => some (r1 ++ '@' :: (a ++ '.' :: w))
        | none => none
    | _ => none

/-- Leftmost-match scan for the email regex. -/
def findEmail : Str → Option Str
  | [] => none
  | c :: rest =>
      match emailAtHead (c :: rest) with
      | some m => some m
      | none => findEmail rest

/-- `AIService.extract_email`. -/
def extract_email (message : Str) : Option Str :=
  if message = [] then none else findEmail message

/-- Decimal digits of a natural number, most significant first. -/
def natDigits (n : ℕ) : Str :=
  (Nat.toDigits 10 n)

/-- Insert thousands separators into a digit string (grouping from the
right), as Python's `"{:,}"` format specifier does. -/
def groupThousands (ds : Str) : Str :=
  if h : ds.length ≤ 3 then ds
  else
    have : ds.length - 3 < ds.length := by omega
    groupThousands (ds.take (ds.length - 3)) ++ ',' :: ds.drop (ds.length - 3)
  termination_by ds.length
  decreasing_by simpa using this

/-- Python `f"{n:,}"` for a natural amount of naira. -/
def formatNaira (n : ℕ) : Str := groupThousands (natDigits n)

/-- An amount as it appears in a reply: the naira sign followed by the
comma-grouped figure. -/
def moneyToken (n : ℕ) : Str := '₦' :: formatNaira n

/-- Customer record as selected by `DBManager.get_customer_by_account`
(the columns the controller reads). -/
structure Customer where
  account_number : Str
  email : Option Str
  feeder : Option Str
  metered : Bool
  bill_amount : ℕ
  nerc_cap : ℕ
deriving DecidableEq, Repr

/-- The customer database, `get_customer_by_account` as a lookup function. -/
abbrev CustomerDB := Str → Option Customer

/-- Result dictionary of `DBManager.check_billing_status`. -/
inductive BillingResult where
  | notFound
  | result (status : Str) (customer : Customer) (bill_amount nerc_cap : ℕ) (difference : ℤ)
deriving DecidableEq, Repr

/-- `DBManager.check_billing_status`: looks the customer up, compares bill
against the NERC cap (`<=` counts as within) and reports the difference
`bill - cap`. -/
def check_billing_status (db : CustomerDB) (account : Str) : BillingResult :=
  match db account with
  | none => .notFound
  | some c =>
      .result (if c.bill_amount ≤ c.nerc_cap then "within_cap".toList else "above_cap".toList)
        c c.bill_amount c.nerc_cap ((c.bill_amount : ℤ) - (c.nerc_cap : ℤ))

/-- **C10.** For an account with a customer record, `check_billing_status`
returns status `within_cap` exactly when `bill ≤ cap` (equality counts as
within), `above_cap` otherwise, and always `difference = bill - cap`
(non-positive whenever the status is `within_cap`); for an account without
a record it returns the bare `not_found` result, which carries no amounts. -/
theorem C10_check_billing_status (db : CustomerDB) (account : Str) :
    (∀ c, db account = some c →
      check_billing_status db account =
        .result (if c.bill_amount ≤ c.nerc_cap then "within_cap".toList else "above_cap".toList)
          c c.bill_amount c.nerc_cap ((c.bill_amount : ℤ) - (c.nerc_cap : ℤ)) ∧
      ((c.bill_amount : ℤ) - (c.nerc_cap : ℤ) ≤ 0 ↔
        (if c.bill_amount ≤ c.nerc_cap then "within_cap".toList else "above_cap".toList)
          = "within_cap".toList)) ∧
    (db account = none → check_billing_status db account = .notFound) := by
  constructor
  · intro c hc
    refine ⟨by simp [check_billing_status, hc], ?_⟩
    by_cases hle : c.bill_amount ≤ c.nerc_cap
    · rw [if_pos hle]
      exact iff_of_true (by omega) rfl
    · rw [if_neg hle]
      exact iff_of_false (by omega) (by decide)
  · intro hc
    simp [check_billing_status, hc]

/-- Witness for C10 at a concrete database. -/
theorem C10_check_billing_status_witness :
    check_billing_status
        (fun a => if a = "102222".toList then
          some { account_number := "102222".toList, email := none, feeder := none,
                 metered := false, bill_amount := 5000, nerc_cap := 6000 } else none)
        "102222".toList =
      .result "within_cap".toList
        { account_number := "102222".toList, email := none, feeder := none,
          metered := false, bill_amount := 5000, nerc_cap := 6000 } 5000 6000 (-1000) := by
  have h := (C10_check_billing_status
    (fun a => if a = "102222".toList then
      some { account_number := "102222".toList, email := none, feeder := none,
             metered := false, bill_amount := 5000, nerc_cap := 6000 } else none)
    "102222".toList).1
    { account_number := "102222".toList, email := none, feeder := none,
      metered := false, bill_amount := 5000, nerc_cap := 6000 } (by simp)
  rw [h.1]
  norm_num

/-- One `{user, assistant, intent, timestamp}` entry of a session's
`conversation_history` (`intent` is absent in entries written by
`AIHandler._process_user_question`). -/
structure HistEntry where
  user : Str
  assistant : Str
  intent : Option Str
  timestamp : ℤ
deriving DecidableEq, Repr

/-- Structured reply of `AIService.call_llm`. -/
structure LlmResponse where
  intent : Str
  reply : Str
  required_data : List Str
deriving DecidableEq, Repr

/-- The `fault_data` working dictionary. -/
structure FaultData where
  account_number : Option Str := none
  email : Option Str := none
  phone_number : Option Str := none
  fault_description : Option Str := none
deriving DecidableEq, Repr

/-- `{}`: the empty `fault_data` dictionary. -/
def emptyFaultData : FaultData := {}

/-- The slice of the session-state dictionary read by
`AIService.generate_response`. -/
structure SessionState where
  pending_billing_confirmation : Bool := false
  pending_fault_confirmation : Bool := false
  account_number : Option Str := none
  fault_data : FaultData := {}
deriving DecidableEq, Repr

/-- The state dictionary returned by `generate_response`, restricted to the
keys the controller ever writes; a `none` field means the key is absent from
the returned dictionary.  For `account_number`, `some none` models the key
explicitly set to Python `None`; for `billing_data`, `some none` models the
key set to the empty dictionary `{}`. -/
structure StateUpdate where
  account_number : Option (Option Str) := none
  billing_data : Option (Option BillingResult) := none
  pending_billing_confirmation : Option Bool := none
  billing_checked : Option Bool := none
  fault_data : Option FaultData := none
  pending_fault_confirmation : Option Bool := none
deriving DecidableEq, Repr

/-- The branches that return the whole `session_state` dictionary are
modelled by converting the read slice back into update form. -/
def SessionState.toUpdate (s : SessionState) : StateUpdate :=
  { account_number := some s.account_number,
    pending_billing_confirmation := some s.pending_billing_confirmation,
    pending_fault_confirmation := some s.pending_fault_confirmation,
    fault_data := some s.fault_data }

/-- Python truthiness of an optional string (`None` and `""` are falsy). -/
def optTruthy : Option Str → Bool
  | none => false
  | some s => s ≠ []

/-- The AI service: its configuration flag, the external collaborators as
oracles (the Azure chat completion, the affirmative/negative classifier
calls, the customer database, `save_fault_report`), and today's date as
formatted by `datetime.now().strftime('%Y%m%d')`.  When `ai_enabled` is
false the deterministic fallbacks of the source are used instead of the
oracles, exactly as in the code; an LLM exception is representable by an
oracle that returns the fallback value. -/
structure AIService where
  ai_enabled : Bool
  llm : Str → LlmResponse
  affirmOracle : Str → Bool
  negOracle : Str → Bool
  db : CustomerDB
  saveFault : Str → Str → Str → Str → Bool
  todayStr : Str

/-- Is one of the keywords a substring of the message? -/
def kwAny (kws : List Str) (m : Str) : Bool := kws.any (fun k => containsSub k m)

/-- Greeting keywords of `_fallback_response`. -/
def greetKws : List Str := ["hello".toList, "hi".toList, "hey".toList,
  "good morning".toList, "good afternoon".toList]

/-- Billing keywords of `_fallback_response`. -/
def billKws : List Str := ["bill".toList, "billing".toList, "charge".toList,
  "overcharge".toList, "nerc".toList, "cap".toList]

/-- Metering keywords of `_fallback_response`. -/
def meterKws : List Str := ["meter".toList, "prepaid".toList, "map".toList, "apply".toList]

/-- Fault keywords of `_fallback_response`. -/
def faultKws : List Str := ["fault".toList, "outage".toList, "no power".toList,
  "blackout".toList]

/-- Simple affirmative keywords of `_is_affirmative`. -/
def affirmKws : List Str := ["yes".toList, "y".toList, "yeah".toList, "yep".toList,
  "ok".toList, "correct".toList, "right".toList]

/-- Simple negative keywords of `_is_negative`. -/
def negKws : List Str := ["no".toList, "n".toList, "nope".toList, "wrong".toList,
  "incorrect".toList, "not".toList]

/-- `AIService._fallback_response`: ordered keyword-pattern matching on the
lowercased, stripped message. -/
def fallback_response (msg : Str) (customer : Option Customer)
    (billing : Option BillingResult) : LlmResponse :=
  let ml := pyStrip (pyLower msg)
  if kwAny greetKws ml then
    { intent := "Greeting".toList,
      reply := "Hi! I\x27m here to help with your BEDC account. What can I assist you with today?".toList,
      required_data := [] }
  else if kwAny billKws ml then
    if billing.isSome ∧ customer.isSome then
      { intent := "BillingConfirmation".toList,
        reply := "Requesting confirmation before showing billing data".toList,
        required_data := [] }
    else
      { intent := "Billing".toList,
        reply := "Could you share your account number so I can look into your billing?".toList,
        required_data := ["account_number".toList] }
  else if kwAny meterKws ml then
    { intent := "Metering".toList,
      reply := "You can apply for a prepaid meter at https://imaap.beninelectric.com:55682/".toList,
      required_data := [] }
  else if kwAny faultKws ml then
    { intent := "Fault".toList,
      reply := "I\x27m sorry about the outage. Could you share your account number?".toList,
      required_data := ["account_number".toList, "email".toList] }
  else
    { intent := "FAQ".toList,
      reply := "I can help with billing, meters, or fault reports. What do you need assistance with?".toList,
      required_data := [] }

/-- `AIService.call_llm`: the oracle when AI is enabled, the deterministic
fallback otherwise (also used on any LLM error). -/
def call_llm (svc : AIService) (msg : Str) (customer : Option Customer)
    (billing : Option BillingResult) : LlmResponse :=
  if svc.ai_enabled then svc.llm msg else fallback_response msg customer billing

/-- `AIService._is_affirmative`: empty message is never affirmative; keyword
matching in fallback mode, classifier oracle otherwise. -/
def is_affirmative (svc : AIService) (m : Str) : Bool :=
  if m = [] then false
  else if svc.ai_enabled then svc.affirmOracle m
  else kwAny affirmKws (pyStrip (pyLower m))

/-- `AIService._is_negative`. -/
def is_negative (svc : AIService) (m : Str) : Bool :=
  if m = [] then false
  else if svc.ai_enabled then svc.negOracle m
  else kwAny negKws (pyStrip (pyLower m))

/-- Reply of `generate_response` to an empty / non-string message. -/
def invalidMessageReply : Str :=
  "I\x27m sorry, I didn\x27t receive a valid message. How can I help you?".toList

/-- The fixed correction-instructions reply used by every
`AccountNotFound` branch of `generate_response`. -/
def accountNotFoundReply : Str :=
  ("I couldn\x27t find an account associated with the number you provided. Please check and confirm:\n\n• Is the account number correct? (It should be 6 digits starting with \x2710\x27)\n• If you don\x27t have an account yet, visit our office at Ring Road, Benin City (Monday-Friday, 8AM-4PM) to create one. Bring valid ID and proof of address.\n\nYou can also provide a different account number if there was a typo.").toList

/-- The billing figures rendered after an affirmative confirmation
(within-cap and above-cap branches, with the unmetered suffixes). -/
def billingShownReply (c : Customer) : Str :=
  if c.bill_amount ≤ c.nerc_cap then
    "Your bill of ".toList ++ moneyToken c.bill_amount ++ " is within the ".toList ++
      moneyToken c.nerc_cap ++ " NERC cap for ".toList ++ c.feeder.getD "your".toList ++
      " feeder. ".toList ++
      (if !c.metered then
        ("Since you\x27re an unmetered customer, your billing follows the approved methodology. " ++
         "For more accurate billing, apply for a prepaid meter at https://imaap.bedinelectric.com:55682/").toList
       else [])
  else
    "I sincerely apologize for this error. Your bill of ".toList ++ moneyToken c.bill_amount ++
      " exceeds the ".toList ++ moneyToken c.nerc_cap ++ " NERC cap by ".toList ++
      moneyToken (c.bill_amount - c.nerc_cap) ++ ". ".toList ++
      "We\x27ll adjust it within one billing cycle.".toList ++
      (if !c.metered then
        " Get a prepaid meter for more accurate billing at https://imaap.bedinelectric.com:55682/".toList
       else [])

/-- The billing confirmation modal message. -/
def confirmationMessage (acct masked : Str) : Str :=
  "Let me check your account. Is this correct?\n\nAccount: ".toList ++ acct ++
    "\nEmail: ".toList ++ masked ++
    "\n\nReply \x27Yes\x27 to proceed or \x27No\x27 to update.".toList

/-- The fault confirmation modal message. -/
def faultConfirmMessage (acct masked : Str) : Str :=
  "Just to confirm - is this your account?\n\nAccount: ".toList ++ acct ++
    "\nEmail: ".toList ++ masked ++
    "\n\nReply \x27Yes\x27 to confirm or \x27No\x27 to update.".toList

/-- The reply after a fault report is logged successfully. -/
def faultSuccessReply (svc : AIService) (acct em : Str) : Str :=
  "Fault report logged successfully!\n\nReference: FR-".toList ++ acct ++ "-".toList ++
    svc.todayStr ++ "\nEmail: ".toList ++ mask_email em ++
    "\n\nOur technical team will contact you within 24-48 hours. Thanks for your patience.".toList

/-- Reply to a negative answer during billing confirmation. -/
def billingNegReply : Str :=
  "No problem. What would you like to update? Please provide the correct account number.".toList

/-- Re-prompt for an unclear answer during billing confirmation. -/
def billingUnclearReply : Str :=
  "I didn\x27t quite catch that. Please reply \x27Yes\x27 to proceed or \x27No\x27 to update.".toList

/-- Reply to a negative answer during fault confirmation. -/
def faultNegReply : Str := "No problem. What would you like to update?".toList

/-- Re-prompt for an unclear answer during fault confirmation. -/
def faultUnclearReply : Str :=
  "Please reply \x27Yes\x27 to confirm or \x27No\x27 to update.".toList

/-- Intent recorded in the most recent conversation-history entry
(`conversation_history[-1].get("intent", "")`), or `""`. -/
def lastIntent (h : List HistEntry) : Str :=
  match h.getLast? with
  | some e => e.intent.getD []
  | none => []

/-- The `if pending_billing_confirmation:` block of `generate_response`.
`none` means the block did not return and execution falls through (this
happens when the answer is affirmative but the session has no truthy
account number or the account has no customer record — the source's inner
`if`s have no `else`). -/
def billingConfirmationStep (svc : AIService) (msg : Str) (st : SessionState)
    (pbc : Bool) : Option (Except Unit (Str × Str × StateUpdate)) :=
  if !pbc then none
  else if is_affirmative svc msg then
    match st.account_number with
    | some acct =>
        if acct ≠ [] then
          match svc.db acct with
          | some c =>
              some (.ok (billingShownReply c, "Billing".toList,
                { billing_data := some none, pending_billing_confirmation := some false,
                  billing_checked := some true, account_number := some (some acct) }))
          | none => none
        else none
    | none => none
  else if is_negative svc msg then
    some (.ok (billingNegReply, "Billing".toList,
      { pending_billing_confirmation := some false, billing_data := some none,
        account_number := some none }))
  else
    some (.ok (billingUnclearReply, "BillingConfirmation".toList, st.toUpdate))

/-- The `if pending_fault_confirmation:` block of `generate_response`.
`none` is fall-through (affirmative answer but `save_fault_report`
returned `False`); `.error` is the uncaught `KeyError` raised by
`fault_data["phone_number"]` etc. when a required key is absent. -/
def faultConfirmationStep (svc : AIService) (msg : Str) (st : SessionState)
    (pfc : Bool) : Option (Except Unit (Str × Str × StateUpdate)) :=
  if !pfc then none
  else if is_affirmative svc msg then
    match st.fault_data.phone_number, st.fault_data.account_number, st.fault_data.email with
    | some ph, some acct, some em =>
        if svc.saveFault ph acct em
            (st.fault_data.fault_description.getD "Power outage reported".toList) then
          some (.ok (faultSuccessReply svc acct em, "Fault".toList,
            { fault_data := some emptyFaultData, pending_fault_confirmation := some false }))
        else none
    | _, _, _ => some (.error ())
  else if is_negative svc msg then
    some (.ok (faultNegReply, "Fault".toList,
      { pending_fault_confirmation := some false, fault_data := some emptyFaultData }))
  else
    some (.ok (faultUnclearReply, "FaultConfirmation".toList, st.toUpdate))

/-- The tail of `generate_response` after account extraction/validation:
intent resolution through `call_llm`, then the deterministic billing
confirmation modal, the hallucination override, and the fault-data
collection branch. -/
def finishFlow (svc : AIService) (msg : Str) (phone : Option Str)
    (st : SessionState) (account_number : Option Str) (customer : Option Customer)
    (billing : Option BillingResult) (account_exists : Bool) (email0 : Option Str) :
    Except Unit (Str × Str × StateUpdate) :=
  let customer_email := customer.bind (·.email)
  let email : Option Str := match email0 with
    | some e => some e
    | none => customer_email
  let llmr := call_llm svc msg customer billing
  let acctOk := optTruthy account_number && account_exists
  if llmr.intent = "Billing".toList ∧ acctOk ∧ billing.isSome then
    let masked := match customer_email with
      | some em => if em ≠ [] then mask_email em else "Not on file".toList
      | none => "Not on file".toList
    .ok (confirmationMessage (account_number.getD []) masked, "BillingConfirmation".toList,
      { account_number := some account_number, billing_data := some billing,
        pending_billing_confirmation := some true })
  else if llmr.intent = "BillingConfirmation".toList ∧ optTruthy account_number ∧ ¬account_exists then
    .ok (accountNotFoundReply, "AccountNotFound".toList, {})
  else if llmr.intent = "Fault".toList then
    let fd0 := st.fault_data
    let fd1 := if acctOk then { fd0 with account_number := account_number } else fd0
    let fd2 := match email with
      | some e => if e ≠ [] then { fd1 with email := some e } else fd1
      | none => fd1
    let fd3 := match phone with
      | some p => if p ≠ [] then { fd2 with phone_number := some p } else fd2
      | none => fd2
    let fd4 := if optTruthy fd3.fault_description then fd3
      else { fd3 with fault_description := some msg }
    if optTruthy fd4.account_number ∧ optTruthy fd4.email ∧ optTruthy fd4.phone_number then
      .ok (faultConfirmMessage (fd4.account_number.getD []) (mask_email (fd4.email.getD [])),
        "FaultConfirmation".toList,
        if acctOk then
          { account_number := some account_number, fault_data := some fd4,
            pending_fault_confirmation := some true }
        else { fault_data := some fd4, pending_fault_confirmation := some true })
    else
      .ok (llmr.reply, llmr.intent,
        if acctOk then { account_number := some account_number, fault_data := some fd4 }
        else { fault_data := some fd4 })
  else
    .ok (llmr.reply, llmr.intent,
      if acctOk then ({ account_number := some account_number } : StateUpdate) else {})

/-- The extraction-and-validation section of `generate_response`: the
5–6-digit potential-account short-circuit, the (unreachable) format
re-check, falling back to the saved account number, and the repository
lookup with its `AccountNotFound` short-circuit. -/
def mainFlow (svc : AIService) (msg : Str) (phone _uname : Option Str)
    (st : SessionState) : Except Unit (Str × Str × StateUpdate) :=
  let extracted := extract_account_number msg
  let email0 := extract_email msg
  if hasPotentialAccount none msg ∧ extracted = none then
    .ok (accountNotFoundReply, "AccountNotFound".toList, {})
  else if (match extracted with | some a => !matchesAccountFormat a | none => false) then
    .ok (accountNotFoundReply, "AccountNotFound".toList, {})
  else
    let account_number : Option Str := match extracted with
      | some a => some a
      | none => st.account_number
    match account_number with
    | some acct =>
        if acct = [] then finishFlow svc msg phone st account_number none none false email0
        else
          match svc.db acct with
          | none => .ok (accountNotFoundReply, "AccountNotFound".toList, {})
          | some customer =>
              finishFlow svc msg phone st account_number (some customer)
                (some (check_billing_status svc.db acct)) true email0
    | none => finishFlow svc msg phone st none none none false email0

/-- `AIService.generate_response`: the confirmation-gated flow controller.
Returns `(reply, intent, state_patch)`; `.error` models the uncaught
`KeyError` of the fault-confirmation branch. -/
def generate_response (svc : AIService) (user_message : Str)
    (conversation_history : List HistEntry) (phone_number : Option Str)
    (user_name : Option Str) (session_state : SessionState) :
    Except Unit (Str × Str × StateUpdate) :=
  if user_message = [] then
    .ok (invalidMessageReply, "unknown".toList, {})
  else
    let pbc := session_state.pending_billing_confirmation
      || lastIntent conversation_history = "BillingConfirmation".toList
    let pfc := session_state.pending_fault_confirmation
      || lastIntent conversation_history = "FaultConfirmation".toList
    match billingConfirmationStep svc user_message session_state pbc with
    | some r => r
    | none =>
        match faultConfirmationStep svc user_message session_state pfc with
        | some r => r
        | none => mainFlow svc user_message phone_number user_name session_state

/-- The empty state patch `{}`. -/
def emptyUpdate : StateUpdate := {}

/-- A token accepted by the format re-check is non-empty. -/
theorem matchesAccountFormat_ne_nil (a : Str) (h : matchesAccountFormat a = true) :
    a ≠ [] := by
  intro he
  subst he
  simp [matchesAccountFormat] at h

/-- Tokens returned by `extract_account_number` pass the format re-check. -/
theorem extract_account_number_format (msg a : Str)
    (h : extract_account_number msg = some a) : matchesAccountFormat a = true := by
  unfold extract_account_number at h
  split at h
  · exact absurd h (by simp)
  · exact findAccount_format _ _ _ h

/-- With neither pending flag set nor a confirmation intent recorded in the
last history entry, `generate_response` is the extraction/intent pipeline. -/
theorem generate_response_no_pending (svc : AIService) (msg : Str)
    (hist : List HistEntry) (phone uname : Option Str) (st : SessionState)
    (hmsg : msg ≠ [])
    (h1 : st.pending_billing_confirmation = false)
    (h2 : lastIntent hist ≠ "BillingConfirmation".toList)
    (h3 : st.pending_fault_confirmation = false)
    (h4 : lastIntent hist ≠ "FaultConfirmation".toList) :
    generate_response svc msg hist phone uname st = mainFlow svc msg phone uname st := by
  unfold generate_response
  rw [if_neg hmsg]
  simp only [h1, h3, Bool.false_or, decide_eq_false h2, decide_eq_false h4]
  rfl

/-- A message with a 5–6-digit token but no `10XXXX` token short-circuits. -/
theorem mainFlow_potential_account (svc : AIService) (msg : Str)
    (phone uname : Option Str) (st : SessionState)
    (hpot : hasPotentialAccount none msg = true)
    (hext : extract_account_number msg = none) :
    mainFlow svc msg phone uname st =
      .ok (accountNotFoundReply, "AccountNotFound".toList, emptyUpdate) := by
  simp [mainFlow, hpot, hext, emptyUpdate]

/-- An extracted token whose repository lookup fails short-circuits. -/
theorem mainFlow_lookup_failed (svc : AIService) (msg : Str)
    (phone uname : Option Str) (st : SessionState) (a : Str)
    (hext : extract_account_number msg = some a)
    (hdb : svc.db a = none) :
    mainFlow svc msg phone uname st =
      .ok (accountNotFoundReply, "AccountNotFound".toList, emptyUpdate) := by
  have hfmt := extract_account_number_format msg a hext
  have hne := matchesAccountFormat_ne_nil a hfmt
  simp [mainFlow, hext, hfmt, hne, hdb, emptyUpdate]

/-- **C2 (amended).** Outside a pending-confirmation state: (a) a message
containing a 5–6-digit token (with word boundaries) from which no `10XXXX`
account token is extracted yields intent `AccountNotFound`, the fixed
correction-instructions reply and an empty patch; (b) so does a message
whose extracted `10XXXX` token has no customer record; in both cases the
returned intent is not a confirmation intent and the reply is not a
billing display. -/
theorem C2_account_not_found_short_circuit (svc : AIService) (msg : Str)
    (hist : List HistEntry) (phone uname : Option Str) (st : SessionState)
    (h1 : st.pending_billing_confirmation = false)
    (h2 : lastIntent hist ≠ "BillingConfirmation".toList)
    (h3 : st.pending_fault_confirmation = false)
    (h4 : lastIntent hist ≠ "FaultConfirmation".toList)
    (hmsg : msg ≠ []) :
    (hasPotentialAccount none msg = true → extract_account_number msg = none →
      generate_response svc msg hist phone uname st =
        .ok (accountNotFoundReply, "AccountNotFound".toList, emptyUpdate)) ∧
    (∀ a, extract_account_number msg = some a → svc.db a = none →
      generate_response svc msg hist phone uname st =
        .ok (accountNotFoundReply, "AccountNotFound".toList, emptyUpdate)) ∧
    "AccountNotFound".toList ≠ "BillingConfirmation".toList ∧
    "AccountNotFound".toList ≠ "FaultConfirmation".toList := by
  refine ⟨?_, ?_, by decide, by decide⟩
  · intro hpot hext
    rw [generate_response_no_pending svc msg hist phone uname st hmsg h1 h2 h3 h4]
    exact mainFlow_potential_account svc msg phone uname st hpot hext
  · intro a hext hdb
    rw [generate_response_no_pending svc msg hist phone uname st hmsg h1 h2 h3 h4]
    exact mainFlow_lookup_failed svc msg phone uname st a hext hdb

/-- A customer record used in the concrete scenarios. -/
def demoCustomer : Customer :=
  { account_number := "102222".toList, email := some "johndoe@example.com".toList,
    feeder := some "Ugbowo".toList, metered := false, bill_amount := 5000, nerc_cap := 6000 }

/-- Concrete customer database: exactly the account `102222`. -/
def demoDB : CustomerDB := fun a => if a = "102222".toList then some demoCustomer else none

/-- The service in fallback mode (`ai_enabled = False`), as it runs when
the Azure credentials are missing. -/
def fallbackSvc : AIService :=
  { ai_enabled := false, llm := fun _ => { intent := [], reply := [], required_data := [] },
    affirmOracle := fun _ => false, negOracle := fun _ => false,
    db := demoDB, saveFault := fun _ _ _ _ => true, todayStr := "20261012".toList }

/-- Witness for C2: both short-circuits fired at concrete messages. -/
theorem C2_account_not_found_witness :
    generate_response fallbackSvc "bill 12345 please".toList [] none none {} =
      .ok (accountNotFoundReply, "AccountNotFound".toList, emptyUpdate) ∧
    generate_response fallbackSvc "bill 109999".toList [] none none {} =
      .ok (accountNotFoundReply, "AccountNotFound".toList, emptyUpdate) := by
  constructor
  · exact (C2_account_not_found_short_circuit fallbackSvc "bill 12345 please".toList []
      none none {} rfl (by decide) rfl (by decide) (by decide)).1 (by decide) (by decide)
  · exact (C2_account_not_found_short_circuit fallbackSvc "bill 109999".toList []
      none none {} rfl (by decide) rfl (by decide) (by decide)).2.1 "109999".toList
      (by decide) (by decide)

/-- **C2 counterexample.** The claim as stated is false: the message
`"bill 12345 102222"` contains the 5-digit token `12345` (word-bounded, not
of the `10XXXX` format), yet the turn — fallback mode, account `102222`
present in the repository — returns the confirmation intent
`BillingConfirmation`, not `AccountNotFound`: the potential-token
short-circuit only fires when *no* `10XXXX` token is extracted from the
message. -/
theorem C2_counterexample :
    potentialAtHead (some ' ') ("12345 102222".toList) = true ∧
    matchesAccountFormat "12345".toList = false ∧
    generate_response fallbackSvc "bill 12345 102222".toList [] none none {} =
      .ok ("Requesting confirmation before showing billing data".toList,
        "BillingConfirmation".toList,
        { account_number := some (some "102222".toList) }) ∧
    "BillingConfirmation".toList ≠ "AccountNotFound".toList := by
  refine ⟨by decide, by decide, ?_, by decide⟩
  rfl

/-- A non-empty string starting with a character absent from `l` is not an
infix of `l`. -/
theorem cons_not_infix_of_not_mem (c : Char) (xs l : Str) (h : c ∉ l) :
    ¬ (c :: xs <:+: l) := fun hinf => h (hinf.subset (List.mem_cons_self c xs))

/-- The naira sign does not occur in the confirmation modal unless it occurs
in the account number or the masked email. -/
theorem naira_not_in_confirmation (acct masked : Str)
    (h1 : '₦' ∉ acct) (h2 : '₦' ∉ masked) : '₦' ∉ confirmationMessage acct masked := by
  unfold confirmationMessage
  intro hmem
  simp only [List.append_assoc] at hmem
  rcases List.mem_append.mp hmem with h | hmem2
  · exact absurd h (by decide)
  rcases List.mem_append.mp hmem2 with h | hmem3
  · exact h1 h
  rcases List.mem_append.mp hmem3 with h | hmem4
  · exact absurd h (by decide)
  rcases List.mem_append.mp hmem4 with h | h
  · exact h2 h
  · exact absurd h (by decide)

/-- The account number is shown in the confirmation modal. -/
theorem acct_infix_confirmation (acct masked : Str) :
    acct <:+: confirmationMessage acct masked :=
  ⟨"Let me check your account. Is this correct?\n\nAccount: ".toList,
    "\nEmail: ".toList ++ masked ++
      "\n\nReply \x27Yes\x27 to proceed or \x27No\x27 to update.".toList,
    by simp [confirmationMessage]⟩

/-- The masked email is shown in the confirmation modal. -/
theorem masked_infix_confirmation (acct masked : Str) :
    masked <:+: confirmationMessage acct masked :=
  ⟨"Let me check your account. Is this correct?\n\nAccount: ".toList ++ acct ++
      "\nEmail: ".toList,
    "\n\nReply \x27Yes\x27 to proceed or \x27No\x27 to update.".toList,
    by simp [confirmationMessage]⟩

/-- Prepending to the right-hand list preserves the infix relation. -/
theorem infix_append_left (l s t : Str) (h : l <:+: t) : l <:+: s ++ t := by
  obtain ⟨u, v, huv⟩ := h
  exact ⟨s ++ u, v, by rw [← huv]; simp⟩

/-- A list is an infix of itself followed by anything. -/
theorem infix_prefix_head (l t : Str) : l <:+: l ++ t := ⟨[], t, by simp⟩

/-- The bill figure appears in the post-confirmation billing reply. -/
theorem bill_infix_billingShownReply (c : Customer) :
    moneyToken c.bill_amount <:+: billingShownReply c := by
  unfold billingShownReply
  by_cases h : c.bill_amount ≤ c.nerc_cap
  · rw [if_pos h]
    simp only [List.append_assoc]
    exact infix_append_left _ _ _ (infix_prefix_head _ _)
  · rw [if_neg h]
    simp only [List.append_assoc]
    exact infix_append_left _ _ _ (infix_prefix_head _ _)

/-- The cap figure appears in the post-confirmation billing reply. -/
theorem cap_infix_billingShownReply (c : Customer) :
    moneyToken c.nerc_cap <:+: billingShownReply c := by
  unfold billingShownReply
  by_cases h : c.bill_amount ≤ c.nerc_cap
  · rw [if_pos h]
    simp only [List.append_assoc]
    exact infix_append_left _ _ _ (infix_append_left _ _ _
      (infix_append_left _ _ _ (infix_prefix_head _ _)))
  · rw [if_neg h]
    simp only [List.append_assoc]
    exact infix_append_left _ _ _ (infix_append_left _ _ _
      (infix_append_left _ _ _ (infix_prefix_head _ _)))

/-- With no token in the message and a saved, repository-backed account
number, `mainFlow` proceeds to the intent-resolution tail. -/
theorem mainFlow_saved_account (svc : AIService) (msg : Str)
    (phone uname : Option Str) (st : SessionState) (acct : Str) (customer : Customer)
    (hpot : hasPotentialAccount none msg = false)
    (hext : extract_account_number msg = none)
    (hsaved : st.account_number = some acct) (hne : acct ≠ [])
    (hdb : svc.db acct = some customer) :
    mainFlow svc msg phone uname st =
      finishFlow svc msg phone st (some acct) (some customer)
        (some (check_billing_status svc.db acct)) true (extract_email msg) := by
  simp [mainFlow, hpot, hext, hsaved, hne, hdb]

/-- When the resolved intent is `Billing` and a validated account with
billing data is present, the deterministic confirmation modal is returned
and the pending flag is set. -/
theorem finishFlow_billing_modal (svc : AIService) (msg : Str) (phone : Option Str)
    (st : SessionState) (acct : Str) (customer : Customer) (br : BillingResult)
    (e0 : Option Str) (em : Str)
    (hne : acct ≠ []) (hem : customer.email = some em) (hemne : em ≠ [])
    (hint : (call_llm svc msg (some customer) (some br)).intent = "Billing".toList) :
    finishFlow svc msg phone st (some acct) (some customer) (some br) true e0 =
      .ok (confirmationMessage acct (mask_email em), "BillingConfirmation".toList,
        { account_number := some (some acct), billing_data := some (some br),
          pending_billing_confirmation := some true }) := by
  simp [finishFlow, hint, optTruthy, hne, hem, hemne]

/-- With the pending-billing flag effectively set, an affirmative answer
for a truthy, repository-backed account renders the billing figures and
clears the flag. -/
theorem billingStep_affirmative (svc : AIService) (msg : Str) (st : SessionState)
    (acct : Str) (customer : Customer)
    (haff : is_affirmative svc msg = true)
    (hacct : st.account_number = some acct) (hne : acct ≠ [])
    (hdb : svc.db acct = some customer) :
    billingConfirmationStep svc msg st true =
      some (.ok (billingShownReply customer, "Billing".toList,
        { billing_data := some none, pending_billing_confirmation := some false,
          billing_checked := some true, account_number := some (some acct) })) := by
  simp [billingConfirmationStep, haff, hacct, hne, hdb]

/-- With either the stored flag or the history-inferred flag set,
`generate_response` enters the confirmation branches first. -/
theorem generate_response_billing_pending (svc : AIService) (msg : Str)
    (hist : List HistEntry) (phone uname : Option Str) (st : SessionState)
    (hmsg : msg ≠ [])
    (hpbc : st.pending_billing_confirmation = true ∨
      lastIntent hist = "BillingConfirmation".toList) :
    generate_response svc msg hist phone uname st =
      (match billingConfirmationStep svc msg st true with
       | some r => r
       | none =>
          match faultConfirmationStep svc msg st
              (st.pending_fault_confirmation ||
                lastIntent hist = "FaultConfirmation".toList) with
          | some r => r
          | none => mainFlow svc msg phone uname st) := by
  unfold generate_response
  rw [if_neg hmsg]
  rcases hpbc with h | h
  · simp [h]
  · simp [h]

/-- **C1 (amended).** For a session holding a validated account number with
available billing data, neither pending flag set nor inferred from history:
on a turn whose resolved intent from the LLM/fallback layer is `Billing`,
`generate_response` returns intent `BillingConfirmation` with the
confirmation modal — which shows the account number and the masked email
and does not contain the naira-prefixed bill figure — and a patch that sets
`pending_billing_confirmation := True` (and stores the billing data and
account number); on a following turn with the pending flag set, an
affirmative message yields the billing reply containing the bill and cap
figures and a patch with `pending_billing_confirmation := False`. -/
theorem C1_billing_confirmation_gate (svc : AIService) (msg msg2 : Str)
    (hist hist2 : List HistEntry) (phone uname : Option Str) (st : SessionState)
    (acct em : Str) (customer : Customer)
    (h1 : st.pending_billing_confirmation = false)
    (h2 : lastIntent hist ≠ "BillingConfirmation".toList)
    (h3 : st.pending_fault_confirmation = false)
    (h4 : lastIntent hist ≠ "FaultConfirmation".toList)
    (hmsg : msg ≠ [])
    (hpot : hasPotentialAccount none msg = false)
    (hext : extract_account_number msg = none)
    (hsaved : st.account_number = some acct) (hne : acct ≠ [])
    (hdb : svc.db acct = some customer)
    (hem : customer.email = some em) (hemne : em ≠ [])
    (hint : (call_llm svc msg (some customer)
      (some (check_billing_status svc.db acct))).intent = "Billing".toList)
    (hn1 : '₦' ∉ acct) (hn2 : '₦' ∉ mask_email em) :
    generate_response svc msg hist phone uname st =
      .ok (confirmationMessage acct (mask_email em), "BillingConfirmation".toList,
        { account_number := some (some acct),
          billing_data := some (some (check_billing_status svc.db acct)),
          pending_billing_confirmation := some true }) ∧
    acct <:+: confirmationMessage acct (mask_email em) ∧
    mask_email em <:+: confirmationMessage acct (mask_email em) ∧
    ¬ (moneyToken customer.bill_amount <:+: confirmationMessage acct (mask_email em)) ∧
    (∀ st2 : SessionState, st2.pending_billing_confirmation = true →
      st2.account_number = some acct → is_affirmative svc msg2 = true →
      generate_response svc msg2 hist2 phone uname st2 =
        .ok (billingShownReply customer, "Billing".toList,
          { billing_data := some none, pending_billing_confirmation := some false,
            billing_checked := some true, account_number := some (some acct) }) ∧
      moneyToken customer.bill_amount <:+: billingShownReply customer ∧
      moneyToken customer.nerc_cap <:+: billingShownReply customer) := by
  refine ⟨?_, acct_infix_confirmation _ _, masked_infix_confirmation _ _, ?_, ?_⟩
  · rw [generate_response_no_pending svc msg hist phone uname st hmsg h1 h2 h3 h4,
      mainFlow_saved_account svc msg phone uname st acct customer hpot hext hsaved hne hdb]
    exact finishFlow_billing_modal svc msg phone st acct customer _ _ em hne hem hemne hint
  · exact cons_not_infix_of_not_mem '₦' _ _
      (naira_not_in_confirmation acct (mask_email em) hn1 hn2)
  · intro st2 hp2 ha2 haff
    have hmsg2 : msg2 ≠ [] := by
      intro he
      rw [he] at haff
      simp [is_affirmative] at haff
    refine ⟨?_, bill_infix_billingShownReply customer, cap_infix_billingShownReply customer⟩
    rw [generate_response_billing_pending svc msg2 hist2 phone uname st2 hmsg2 (Or.inl hp2),
      billingStep_affirmative svc msg2 st2 acct customer haff ha2 hne hdb]

/-- **C1 counterexample.** In fallback mode (a real configuration: missing
Azure credentials) a billing turn for a validated account with billing data
resolves intent `BillingConfirmation` directly through the keyword layer,
so the deterministic modal (which fires only on resolved intent `Billing`)
is bypassed: the reply does not show the account number and the returned
patch does not set `pending_billing_confirmation` at all — contradicting
the claim's description of the first billing-intent turn. -/
theorem C1_counterexample :
    generate_response fallbackSvc "bill".toList [] none none
        { account_number := some "102222".toList } =
      .ok ("Requesting confirmation before showing billing data".toList,
        "BillingConfirmation".toList,
        { account_number := some (some "102222".toList) }) ∧
    ({ account_number := some (some "102222".toList) } : StateUpdate).pending_billing_confirmation
      = none ∧
    ¬ ("102222".toList <:+: "Requesting confirmation before showing billing data".toList) := by
  exact ⟨rfl, rfl, by decide⟩

/-- The service in LLM mode with an intent resolver that answers `Billing`
and an affirmative classifier that answers yes. -/
def billingSvc : AIService :=
  { ai_enabled := true,
    llm := fun _ => { intent := "Billing".toList, reply := "ok".toList, required_data := [] },
    affirmOracle := fun _ => true, negOracle := fun _ => false,
    db := demoDB, saveFault := fun _ _ _ _ => true, todayStr := "20261012".toList }

/-- Witness for C1: the two-turn confirmation flow at a concrete session. -/
theorem C1_billing_confirmation_gate_witness :
    generate_response billingSvc "my bill is too high".toList [] none none
        { account_number := some "102222".toList } =
      .ok (confirmationMessage "102222".toList (mask_email "johndoe@example.com".toList),
        "BillingConfirmation".toList,
        { account_number := some (some "102222".toList),
          billing_data := some (some (check_billing_status billingSvc.db "102222".toList)),
          pending_billing_confirmation := some true }) ∧
    generate_response billingSvc "yes".toList [] none none
        { pending_billing_confirmation := true, account_number := some "102222".toList } =
      .ok (billingShownReply demoCustomer, "Billing".toList,
        { billing_data := some none, pending_billing_confirmation := some false,
          billing_checked := some true, account_number := some (some "102222".toList) }) := by
  have h := C1_billing_confirmation_gate billingSvc "my bill is too high".toList "yes".toList
    [] [] none none { account_number := some "102222".toList }
    "102222".toList "johndoe@example.com".toList demoCustomer
    rfl (by decide) rfl (by decide) (by decide) (by decide) (by decide)
    rfl (by decide) rfl rfl (by decide) rfl (by decide) (by decide)
  exact ⟨h.1, (h.2.2.2.2
    { pending_billing_confirmation := true, account_number := some "102222".toList }
    rfl rfl rfl).1⟩

/-- A negative answer during billing confirmation clears the flag and the
working data and nulls the account number. -/
theorem billingStep_negative (svc : AIService) (msg : Str) (st : SessionState)
    (haff : is_affirmative svc msg = false) (hneg : is_negative svc msg = true) :
    billingConfirmationStep svc msg st true =
      some (.ok (billingNegReply, "Billing".toList,
        { pending_billing_confirmation := some false, billing_data := some none,
          account_number := some none })) := by
  simp [billingConfirmationStep, haff, hneg]

/-- An unclear answer during billing confirmation re-prompts, state
unchanged. -/
theorem billingStep_unclear (svc : AIService) (msg : Str) (st : SessionState)
    (haff : is_affirmative svc msg = false) (hneg : is_negative svc msg = false) :
    billingConfirmationStep svc msg st true =
      some (.ok (billingUnclearReply, "BillingConfirmation".toList, st.toUpdate)) := by
  simp [billingConfirmationStep, haff, hneg]

/-- An affirmative answer during fault confirmation with complete fault
data and a successful save logs the report and clears the flag. -/
theorem faultStep_affirmative (svc : AIService) (msg : Str) (st : SessionState)
    (ph acct em : Str)
    (haff : is_affirmative svc msg = true)
    (hph : st.fault_data.phone_number = some ph)
    (hacct : st.fault_data.account_number = some acct)
    (hem : st.fault_data.email = some em)
    (hsave : svc.saveFault ph acct em
      (st.fault_data.fault_description.getD "Power outage reported".toList) = true) :
    faultConfirmationStep svc msg st true =
      some (.ok (faultSuccessReply svc acct em, "Fault".toList,
        { fault_data := some emptyFaultData, pending_fault_confirmation := some false })) := by
  unfold faultConfirmationStep
  rw [if_neg (by decide), if_pos haff, hph, hacct, hem]
  exact if_pos hsave

/-- A negative answer during fault confirmation clears the flag and data. -/
theorem faultStep_negative (svc : AIService) (msg : Str) (st : SessionState)
    (haff : is_affirmative svc msg = false) (hneg : is_negative svc msg = true) :
    faultConfirmationStep svc msg st true =
      some (.ok (faultNegReply, "Fault".toList,
        { pending_fault_confirmation := some false, fault_data := some emptyFaultData })) := by
  simp [faultConfirmationStep, haff, hneg]

/-- An unclear answer during fault confirmation re-prompts. -/
theorem faultStep_unclear (svc : AIService) (msg : Str) (st : SessionState)
    (haff : is_affirmative svc msg = false) (hneg : is_negative svc msg = false) :
    faultConfirmationStep svc msg st true =
      some (.ok (faultUnclearReply, "FaultConfirmation".toList, st.toUpdate)) := by
  simp [faultConfirmationStep, haff, hneg]

/-- With the fault flag effectively set (and the billing one not),
`generate_response` goes through the fault confirmation step first. -/
theorem generate_response_fault_pending (svc : AIService) (msg : Str)
    (hist : List HistEntry) (phone uname : Option Str) (st : SessionState)
    (hmsg : msg ≠ [])
    (h1 : st.pending_billing_confirmation = false)
    (hlb : lastIntent hist ≠ "BillingConfirmation".toList)
    (hpfc : st.pending_fault_confirmation = true ∨
      lastIntent hist = "FaultConfirmation".toList) :
    generate_response svc msg hist phone uname st =
      (match faultConfirmationStep svc msg st true with
       | some r => r
       | none => mainFlow svc msg phone uname st) := by
  unfold generate_response
  rw [if_neg hmsg]
  simp only [h1, Bool.false_or, decide_eq_false hlb]
  rcases hpfc with h | h
  · simp only [h, Bool.true_or]
    rfl
  · simp only [h, eq_self_iff_true, decide_True, Bool.or_true]
    rfl

/-- **C6 (amended).** When both stored pending flags are false but the most
recent history entry's intent is `BillingConfirmation` (resp.
`FaultConfirmation`), `generate_response` treats the corresponding flag as
true and handles the message as an answer to that confirmation: a negative
or unclear answer is processed entirely by the confirmation logic, and so
is an affirmative answer when the pending action's data is available (a
truthy, repository-backed account number for billing; complete fault data
with a successful save for fault) — in these cases the output is the fixed
confirmation outcome, independent of the LLM.  (When an affirmative answer
finds the needed data missing, the source falls through to the general
intent pipeline — the uncorrected claim fails there, see the
counterexample.) -/
theorem C6_pending_inference_from_history (svc : AIService) (msg : Str)
    (hist : List HistEntry) (phone uname : Option Str) (st : SessionState)
    (hmsg : msg ≠ [])
    (h1 : st.pending_billing_confirmation = false)
    (h2 : st.pending_fault_confirmation = false) :
    (lastIntent hist = "BillingConfirmation".toList →
      (∀ acct customer, is_affirmative svc msg = true →
        st.account_number = some acct → acct ≠ [] → svc.db acct = some customer →
        generate_response svc msg hist phone uname st =
          .ok (billingShownReply customer, "Billing".toList,
            { billing_data := some none, pending_billing_confirmation := some false,
              billing_checked := some true, account_number := some (some acct) })) ∧
      (is_affirmative svc msg = false → is_negative svc msg = true →
        generate_response svc msg hist phone uname st =
          .ok (billingNegReply, "Billing".toList,
            { pending_billing_confirmation := some false, billing_data := some none,
              account_number := some none })) ∧
      (is_affirmative svc msg = false → is_negative svc msg = false →
        generate_response svc msg hist phone uname st =
          .ok (billingUnclearReply, "BillingConfirmation".toList, st.toUpdate))) ∧
    (lastIntent hist = "FaultConfirmation".toList →
      (∀ ph acct em, is_affirmative svc msg = true →
        st.fault_data.phone_number = some ph →
        st.fault_data.account_number = some acct →
        st.fault_data.email = some em →
        svc.saveFault ph acct em
          (st.fault_data.fault_description.getD "Power outage reported".toList) = true →
        generate_response svc msg hist phone uname st =
          .ok (faultSuccessReply svc acct em, "Fault".toList,
            { fault_data := some emptyFaultData,
              pending_fault_confirmation := some false })) ∧
      (is_affirmative svc msg = false → is_negative svc msg = true →
        generate_response svc msg hist phone uname st =
          .ok (faultNegReply, "Fault".toList,
            { pending_fault_confirmation := some false,
              fault_data := some emptyFaultData })) ∧
      (is_affirmative svc msg = false → is_negative svc msg = false →
        generate_response svc msg hist phone uname st =
          .ok (faultUnclearReply, "FaultConfirmation".toList, st.toUpdate))) := by
  constructor
  · intro hli
    refine ⟨?_, ?_, ?_⟩
    · intro acct customer haff hacct hne hdb
      rw [generate_response_billing_pending svc msg hist phone uname st hmsg (Or.inr hli),
        billingStep_affirmative svc msg st acct customer haff hacct hne hdb]
    · intro haff hneg
      rw [generate_response_billing_pending svc msg hist phone uname st hmsg (Or.inr hli),
        billingStep_negative svc msg st haff hneg]
    · intro haff hneg
      rw [generate_response_billing_pending svc msg hist phone uname st hmsg (Or.inr hli),
        billingStep_unclear svc msg st haff hneg]
  · intro hli
    have hlb : lastIntent hist ≠ "BillingConfirmation".toList := by
      rw [hli]
      decide
    refine ⟨?_, ?_, ?_⟩
    · intro ph acct em haff hph hacct hem hsave
      rw [generate_response_fault_pending svc msg hist phone uname st hmsg h1 hlb (Or.inr hli),
        faultStep_affirmative svc msg st ph acct em haff hph hacct hem hsave]
    · intro haff hneg
      rw [generate_response_fault_pending svc msg hist phone uname st hmsg h1 hlb (Or.inr hli),
        faultStep_negative svc msg st haff hneg]
    · intro haff hneg
      rw [generate_response_fault_pending svc msg hist phone uname st hmsg h1 hlb (Or.inr hli),
        faultStep_unclear svc msg st haff hneg]

/-- A history whose last entry recorded intent `BillingConfirmation`. -/
def histBillingConf : List HistEntry :=
  [{ user := "x".toList, assistant := "y".toList,
     intent := some "BillingConfirmation".toList, timestamp := 0 }]

/-- LLM-mode service answering intent `FAQ`. -/
def chatSvcA : AIService :=
  { billingSvc with
    llm := fun _ => { intent := "FAQ".toList, reply := "a".toList, required_data := [] } }

/-- LLM-mode service answering intent `Metering`; identical to `chatSvcA`
except for the LLM oracle. -/
def chatSvcB : AIService :=
  { billingSvc with
    llm := fun _ => { intent := "Metering".toList, reply := "b".toList, required_data := [] } }

/-- **C6 counterexample.** With the stored flags false, the last history
intent `BillingConfirmation` and an affirmative message, a session whose
state holds no account number falls through the confirmation branch into
the general pipeline: two services identical except for their LLM oracle
produce different outputs, so the message is *not* processed only as a
confirmation answer — the general LLM call runs. -/
theorem C6_counterexample :
    chatSvcA.ai_enabled = chatSvcB.ai_enabled ∧
    chatSvcA.affirmOracle = chatSvcB.affirmOracle ∧
    chatSvcA.negOracle = chatSvcB.negOracle ∧
    chatSvcA.db = chatSvcB.db ∧
    generate_response chatSvcA "yes".toList histBillingConf none none {} =
      .ok ("a".toList, "FAQ".toList, emptyUpdate) ∧
    generate_response chatSvcB "yes".toList histBillingConf none none {} =
      .ok ("b".toList, "Metering".toList, emptyUpdate) ∧
    "FAQ".toList ≠ "Metering".toList := by
  exact ⟨rfl, rfl, rfl, rfl, rfl, rfl, by decide⟩

/-- Witness for C6: the history-inferred billing confirmation handled at
concrete inputs — an affirmative answer with a repository-backed account,
and an unclear answer. -/
theorem C6_pending_inference_witness :
    generate_response billingSvc "yes".toList histBillingConf none none
        { account_number := some "102222".toList } =
      .ok (billingShownReply demoCustomer, "Billing".toList,
        { billing_data := some none, pending_billing_confirmation := some false,
          billing_checked := some true, account_number := some (some "102222".toList) }) ∧
    generate_response fallbackSvc "hmm".toList histBillingConf none none
        { account_number := some "102222".toList } =
      .ok (billingUnclearReply, "BillingConfirmation".toList,
        SessionState.toUpdate { account_number := some "102222".toList }) := by
  constructor
  · exact ((C6_pending_inference_from_history billingSvc "yes".toList histBillingConf
      none none { account_number := some "102222".toList }
      (by decide) rfl rfl).1 (by decide)).1 "102222".toList demoCustomer rfl rfl
      (by decide) rfl
  · exact ((C6_pending_inference_from_history fallbackSvc "hmm".toList histBillingConf
      none none { account_number := some "102222".toList }
      (by decide) rfl rfl).1 (by decide)).2.2 (by decide) (by decide)

/-- The value stored under `paid_session_expires`: an ISO timestamp that
parses (`valid t`) or a string `datetime.fromisoformat` rejects. -/
inductive ExpiryVal where
  | valid (t : ℤ)
  | malformed
deriving DecidableEq, Repr

/-- A session record, with the fields created by
`SessionManager.get_session_state`.  `_reset_paid_session_internal` deletes
the four paid keys; deletion is modelled as resetting them to their falsy
defaults, observationally equal under the source's `.get` reads. -/
structure SessionRec where
  current_state : Str
  current_handler : Str
  cart : List (Str × ℕ)
  selected_category : Option Str
  selected_item : Option Str
  user_name : Option Str
  phone_number : Str
  address : Option Str
  account_number : Option Str
  quantity_prompt_sent : Bool
  last_activity : ℤ
  payment_reference : Option Str
  order_id : Option Str
  total_cost : ℕ
  is_paid_user : Bool
  extended_session : Bool
  recent_order_id : Option Str
  paid_session_expires : Option ExpiryVal
  freshly_reset_timestamp : Option ℤ
  conversation_history : List HistEntry
  fault_data : FaultData
  billing_checked : Bool
  faq_category : Option Str
deriving DecidableEq, Repr

/-- The module-level `_sessions_store` dictionary.  All store operations in
the source serialize through `_sessions_lock`; they are modelled as pure
state transformers.  (The nested re-acquisition of that non-reentrant lock
by `update_session_state` inside `_reset_paid_session_internal` callers is
a source defect recorded with claim C5; the model gives the functional
effect those code paths intend.) -/
abbrev Store := List (Str × SessionRec)

/-- Dictionary lookup. -/
def storeFind : Store → Str → Option SessionRec
  | [], _ => none
  | (k, v) :: rest, sid => if k = sid then some v else storeFind rest sid

/-- Dictionary assignment `_sessions_store[sid] = r`. -/
def storeInsert : Store → Str → SessionRec → Store
  | [], sid, r => [(sid, r)]
  | (k, v) :: rest, sid, r =>
      if k = sid then (k, r) :: rest else (k, v) :: storeInsert rest sid r

/-- Dictionary deletion `del _sessions_store[sid]`. -/
def storeErase (st : Store) (sid : Str) : Store :=
  st.filter (fun kv => kv.1 ≠ sid)

theorem storeFind_insert (st : Store) (sid : Str) (r : SessionRec) :
    storeFind (storeInsert st sid r) sid = some r := by
  induction st with
  | nil => simp [storeInsert, storeFind]
  | cons kv rest ih =>
      by_cases h : kv.1 = sid
      · simp [storeInsert, storeFind, h]
      · simp [storeInsert, storeFind, h, ih]

theorem storeFind_erase (st : Store) (sid : Str) :
    storeFind (storeErase st sid) sid = none := by
  induction st with
  | nil => simp [storeErase, storeFind]
  | cons kv rest ih =>
      by_cases h : kv.1 = sid
      · simpa [storeErase, h] using ih
      · simpa [storeErase, storeFind, h] using ih

/-- `SESSION_TIMEOUT_SECONDS`: 50 minutes. -/
def SESSION_TIMEOUT_SECONDS : ℕ := 3000

/-- `PAID_SESSION_TIMEOUT_SECONDS`. -/
def PAID_SESSION_TIMEOUT_SECONDS : ℕ := 12000

/-- `FRESH_RESET_GRACE_PERIOD_SECONDS`. -/
def FRESH_RESET_GRACE_PERIOD_SECONDS : ℕ := 2

/-- `SessionManager._get_timeout_duration`: the long duration only for a
paid, extended session whose expiry parses and lies strictly in the
future; missing or malformed expiry falls back to the normal duration. -/
def get_timeout_duration (now : ℤ) (s : SessionRec) : ℕ :=
  if s.is_paid_user && s.extended_session then
    match s.paid_session_expires with
    | some (.valid t) => if now < t then PAID_SESSION_TIMEOUT_SECONDS else SESSION_TIMEOUT_SECONDS
    | some .malformed => SESSION_TIMEOUT_SECONDS
    | none => SESSION_TIMEOUT_SECONDS
  else SESSION_TIMEOUT_SECONDS

/-- `SessionManager._reset_paid_session_internal`: the paid keys are
removed, `last_activity` is stamped and the freshly-reset flag cleared
(its nested `update_session_state` call re-stamps the same fields and, the
old and new record being the same object, never sets the edge flag). -/
def resetPaidSessionFields (now : ℤ) (s : SessionRec) : SessionRec :=
  { s with is_paid_user := false, extended_session := false,
           recent_order_id := none, paid_session_expires := none,
           last_activity := now, freshly_reset_timestamp := none }

/-- Does `get_session_state` reset the paid status of this record?  (Only
when the expiry is present: the retrieval path leaves a paid record with a
*missing* expiry untouched, unlike `cleanup_expired_sessions`.) -/
def needsPaidReset (now : ℤ) (s : SessionRec) : Bool :=
  s.is_paid_user && s.extended_session &&
    (match s.paid_session_expires with
     | some (.valid t) => now > t
     | some .malformed => true
     | none => false)

/-- The brand-new default record built by `get_session_state`. -/
def freshSessionBase (now : ℤ) (sid : Str) : SessionRec :=
  { current_state := "start".toList, current_handler := "greeting_handler".toList,
    cart := [], selected_category := none, selected_item := none,
    user_name := none, phone_number := sid, address := none, account_number := none,
    quantity_prompt_sent := false, last_activity := now, payment_reference := none,
    order_id := none, total_cost := 0, is_paid_user := false, extended_session := false,
    recent_order_id := none, paid_session_expires := none, freshly_reset_timestamp := none,
    conversation_history := [], fault_data := {}, billing_checked := false,
    faq_category := none }

/-- `SessionManager.get_session_state`: self-heal an explicitly expired (or
malformed) paid session first, then apply the general inactivity timeout —
a timeout reset preserves `user_name`, `address` and `account_number` and
stamps the freshly-reset flag; an active session gets `last_activity`
bumped and the flag cleared; an unknown id gets a brand-new record. -/
def get_session_state (now : ℤ) (store : Store) (sid : Str) : SessionRec × Store :=
  match storeFind store sid with
  | none =>
      let r := freshSessionBase now sid
      (r, storeInsert store sid r)
  | some s0 =>
      let s1 := if needsPaidReset now s0 then resetPaidSessionFields now s0 else s0
      let store1 := if needsPaidReset now s0 then storeInsert store sid s1 else store
      if now - s1.last_activity > (get_timeout_duration now s1 : ℤ) then
        let r := { freshSessionBase now sid with
          user_name := s1.user_name, address := s1.address,
          account_number := s1.account_number, freshly_reset_timestamp := some now }
        (r, storeInsert store1 sid r)
      else
        let r := { s1 with last_activity := now, freshly_reset_timestamp := none }
        (r, storeInsert store1 sid r)

/-- Is this record in the greeting handler's `start`/`greeting` state? -/
def isGreetingPair (s : SessionRec) : Bool :=
  s.current_handler = "greeting_handler".toList &&
    (s.current_state = "start".toList || s.current_state = "greeting".toList)

/-- The same test on the possibly-absent old record (`.get` on `{}` gives
`None`, never a greeting pair). -/
def isGreetingPairOpt : Option SessionRec → Bool
  | some s => isGreetingPair s
  | none => false

/-- `SessionManager.update_session_state`: always stamps `last_activity`;
sets `freshly_reset_timestamp` exactly on an edge transition into the
greeting handler's `start`/`greeting` state, clearing it otherwise.
Returns the stored record (Python mutates `new_state_data` in place). -/
def update_session_state (now : ℤ) (store : Store) (sid : Str) (new : SessionRec) :
    SessionRec × Store :=
  let edge := isGreetingPair new && !(isGreetingPairOpt (storeFind store sid))
  let s := { new with
    last_activity := now,
    freshly_reset_timestamp := if edge then some now else none }
  (s, storeInsert store sid s)

/-- `SessionManager.update_session_activity`. -/
def update_session_activity (now : ℤ) (store : Store) (sid : Str) : Store :=
  match storeFind store sid with
  | some s =>
      storeInsert store sid { s with last_activity := now, freshly_reset_timestamp := none }
  | none => store

/-- `SessionManager.is_freshly_reset`: true only when the flag is set, the
record still sits in the greeting `start`/`greeting` state and less than
the grace period has elapsed. -/
def is_freshly_reset (now : ℤ) (store : Store) (sid : Str) : Bool :=
  match storeFind store sid with
  | none => false
  | some s =>
      match s.freshly_reset_timestamp with
      | some t =>
          if isGreetingPair s then now - t < (FRESH_RESET_GRACE_PERIOD_SECONDS : ℤ) else false
      | none => false

/-- `SessionManager.is_paid_user_session` (lock-elided, see C5): true only
when both paid flags are set and the expiry parses and has not passed;
otherwise self-heals by clearing the paid fields. -/
def is_paid_user_session (now : ℤ) (store : Store) (sid : Str) : Bool × Store :=
  match storeFind store sid with
  | none => (false, store)
  | some s =>
      if !(s.is_paid_user && s.extended_session) then (false, store)
      else
        match s.paid_session_expires with
        | some (.valid t) =>
            if now > t then (false, storeInsert store sid (resetPaidSessionFields now s))
            else (true, store)
        | some .malformed => (false, storeInsert store sid (resetPaidSessionFields now s))
        | none => (false, storeInsert store sid (resetPaidSessionFields now s))

/-- `SessionManager.clear_full_session`. -/
def clear_full_session (store : Store) (sid : Str) : Store := storeErase store sid

/-- Does `cleanup_expired_sessions` reset the paid status of this record?
Unlike the retrieval path it also heals a paid record with a *missing*
expiry. -/
def needsPaidResetCleanup (now : ℤ) (s : SessionRec) : Bool :=
  s.is_paid_user && s.extended_session &&
    (match s.paid_session_expires with
     | some (.valid t) => now > t
     | some .malformed => true
     | none => true)

/-- `SessionManager.cleanup_expired_sessions` (lock-elided, see C5): heal
expired paid sessions, then delete every session whose inactivity exceeds
its effective timeout, returning the count deleted. -/
def cleanup_expired_sessions (now : ℤ) (store : Store) : ℕ × Store :=
  let step : (Store × List Str) → (Str × SessionRec) → (Store × List Str) :=
    fun acc kv =>
      let s := kv.2
      let s1 := if needsPaidResetCleanup now s then resetPaidSessionFields now s else s
      let st1 := if needsPaidResetCleanup now s then storeInsert acc.1 kv.1 s1 else acc.1
      if now - s1.last_activity > (get_timeout_duration now s1 : ℤ) then
        (st1, acc.2 ++ [kv.1])
      else (st1, acc.2)
  let res := store.foldl step (store, [])
  (res.2.length, res.2.foldl storeErase res.1)

/-- **C4 (amended).** For every stored session that is not in the
expired/malformed-paid self-heal case, if its inactivity exceeds its
effective timeout then `get_session_state` returns (and stores) a record
with `current_state = "start"` whose `account_number`, `user_name` and
`address` are the prior values, while the working fields (cart, selected
items, conversation history, fault data, paid flags) are reset to their
defaults; and after `clear_full_session` the record — account number
included — is gone.  (A session in the self-heal case has `last_activity`
bumped by the heal and is not reset on that call: see the
counterexample.) -/
theorem C4_timeout_reset_preserves_identity (now : ℤ) (store : Store) (sid : Str)
    (s : SessionRec)
    (hfind : storeFind store sid = some s)
    (hnoheal : needsPaidReset now s = false)
    (htimeout : now - s.last_activity > (get_timeout_duration now s : ℤ)) :
    (get_session_state now store sid).1.current_state = "start".toList ∧
    (get_session_state now store sid).1.account_number = s.account_number ∧
    (get_session_state now store sid).1.user_name = s.user_name ∧
    (get_session_state now store sid).1.address = s.address ∧
    (get_session_state now store sid).1.cart = [] ∧
    (get_session_state now store sid).1.conversation_history = [] ∧
    (get_session_state now store sid).1.fault_data = emptyFaultData ∧
    (get_session_state now store sid).1.selected_category = none ∧
    (get_session_state now store sid).1.selected_item = none ∧
    (get_session_state now store sid).1.is_paid_user = false ∧
    (get_session_state now store sid).1.extended_session = false ∧
    storeFind (get_session_state now store sid).2 sid = some (get_session_state now store sid).1 ∧
    storeFind (clear_full_session store sid) sid = none := by
  have hgs : get_session_state now store sid =
      ({ freshSessionBase now sid with
          user_name := s.user_name, address := s.address,
          account_number := s.account_number, freshly_reset_timestamp := some now },
        storeInsert store sid
          { freshSessionBase now sid with
            user_name := s.user_name, address := s.address,
            account_number := s.account_number, freshly_reset_timestamp := some now }) := by
    unfold get_session_state
    rw [hfind]
    simp only [hnoheal, Bool.false_eq_true, if_false, if_pos htimeout]
  rw [hgs]
  refine ⟨rfl, rfl, rfl, rfl, rfl, rfl, rfl, rfl, rfl, rfl, rfl, ?_, storeFind_erase store sid⟩
  exact storeFind_insert store sid _

/-- An unpaid, long-inactive session used as the C4 witness. -/
def staleChatRec : SessionRec :=
  { freshSessionBase 0 "u".toList with
    current_state := "ai_chat".toList, current_handler := "ai_handler".toList,
    account_number := some "102222".toList, user_name := some "Ada".toList }

/-- A paid session whose `paid_session_expires` lies in the past. -/
def paidExpiredRec : SessionRec :=
  { staleChatRec with
    is_paid_user := true, extended_session := true,
    paid_session_expires := some (.valid 100) }

/-- Witness for C4 at the concrete stale record. -/
theorem C4_timeout_reset_witness :
    (get_session_state 10000 [("u".toList, staleChatRec)] "u".toList).1.current_state
      = "start".toList ∧
    (get_session_state 10000 [("u".toList, staleChatRec)] "u".toList).1.account_number
      = staleChatRec.account_number ∧
    storeFind (clear_full_session [("u".toList, staleChatRec)] "u".toList) "u".toList
      = none := by
  have h := C4_timeout_reset_preserves_identity 10000 [("u".toList, staleChatRec)]
    "u".toList staleChatRec (by decide) (by decide) (by decide)
  exact ⟨h.1, h.2.1, h.2.2.2.2.2.2.2.2.2.2.2.2⟩

/-- **C4 counterexample.** A paid session whose paid expiry has passed:
its inactivity (10000 s) exceeds its effective timeout (normal, 3000 s),
yet the next `get_session_state` does *not* return a `"start"` record —
the paid self-heal stamps `last_activity := now` before the timeout check,
so the call returns the healed record still in `"ai_chat"`. -/
theorem C4_counterexample :
    10000 - paidExpiredRec.last_activity
      > (get_timeout_duration 10000 paidExpiredRec : ℤ) ∧
    (get_session_state 10000 [("u".toList, paidExpiredRec)] "u".toList).1.current_state
      = "ai_chat".toList ∧
    "ai_chat".toList ≠ "start".toList := by
  exact ⟨by decide, by decide, by decide⟩

/-- **C5 (supporting theorem, lock-elided model).** On the functional
content of `is_paid_user_session`: for a record with both paid flags set
whose expiry is past, malformed, or missing, the call returns `False`, the
stored record afterwards has the paid fields cleared, and its effective
timeout is the normal duration thereafter; and the call returns `True`
only when both flags are set and the expiry is valid and not passed.  (In
the source these self-heal paths never complete: they re-acquire the
non-reentrant `_sessions_lock`, see RESULTS C5.) -/
theorem C5_paid_session_self_heal (now : ℤ) (store : Store) (sid : Str) (s : SessionRec)
    (hfind : storeFind store sid = some s)
    (hpaid : s.is_paid_user = true) (hext : s.extended_session = true)
    (hbad : (∃ t, s.paid_session_expires = some (.valid t) ∧ now > t) ∨
      s.paid_session_expires = some .malformed ∨ s.paid_session_expires = none) :
    (is_paid_user_session now store sid).1 = false ∧
    storeFind (is_paid_user_session now store sid).2 sid =
      some (resetPaidSessionFields now s) ∧
    (resetPaidSessionFields now s).is_paid_user = false ∧
    (resetPaidSessionFields now s).extended_session = false ∧
    (resetPaidSessionFields now s).paid_session_expires = none ∧
    (resetPaidSessionFields now s).recent_order_id = none ∧
    get_timeout_duration now (resetPaidSessionFields now s) = SESSION_TIMEOUT_SECONDS ∧
    (∀ t, s.paid_session_expires = some (.valid t) → ¬ now > t →
      is_paid_user_session now store sid = (true, store)) := by
  have hflags : (!(s.is_paid_user && s.extended_session)) = false := by
    simp [hpaid, hext]
  refine ⟨?_, ?_, rfl, rfl, rfl, rfl, by simp [get_timeout_duration, resetPaidSessionFields], ?_⟩
  · unfold is_paid_user_session
    rw [hfind]
    simp only [hflags, Bool.false_eq_true, if_false]
    rcases hbad with ⟨t, he, ht⟩ | he | he
    · rw [he]
      simp [ht]
    · rw [he]
    · rw [he]
  · unfold is_paid_user_session
    rw [hfind]
    simp only [hflags, Bool.false_eq_true, if_false]
    rcases hbad with ⟨t, he, ht⟩ | he | he
    · rw [he]
      simp [ht, storeFind_insert]
    · rw [he]
      simp [storeFind_insert]
    · rw [he]
      simp [storeFind_insert]
  · intro t he hnot
    unfold is_paid_user_session
    rw [hfind]
    simp only [hflags, Bool.false_eq_true, if_false]
    rw [he]
    simp [hnot]

/-- Witness for C5's supporting theorem at the concrete expired record. -/
theorem C5_paid_session_self_heal_witness :
    (is_paid_user_session 10000 [("u".toList, paidExpiredRec)] "u".toList).1 = false ∧
    storeFind (is_paid_user_session 10000 [("u".toList, paidExpiredRec)] "u".toList).2
        "u".toList = some (resetPaidSessionFields 10000 paidExpiredRec) ∧
    get_timeout_duration 10000 (resetPaidSessionFields 10000 paidExpiredRec)
      = SESSION_TIMEOUT_SECONDS := by
  have h := C5_paid_session_self_heal 10000 [("u".toList, paidExpiredRec)] "u".toList
    paidExpiredRec (by decide) rfl rfl (Or.inl ⟨100, rfl, by decide⟩)
  exact ⟨h.1, h.2.1, h.2.2.2.2.2.2.1⟩

/-- **C9.** `update_session_state` always stamps `last_activity := now` and
stores the record; it sets `freshly_reset_timestamp := now` exactly when
the update transitions from a non-greeting-pair stored state (or no stored
record) into the greeting handler's `start`/`greeting` state, and clears
it to `None` otherwise; after an edge-triggering update,
`is_freshly_reset` reports true exactly while less than the 2-second grace
period has elapsed, and after any other update it reports false. -/
theorem C9_update_stamps_and_edge_triggers (now now2 : ℤ) (store : Store)
    (sid : Str) (new : SessionRec) :
    (update_session_state now store sid new).1.last_activity = now ∧
    storeFind (update_session_state now store sid new).2 sid =
      some (update_session_state now store sid new).1 ∧
    (isGreetingPair new = true → isGreetingPairOpt (storeFind store sid) = false →
      (update_session_state now store sid new).1.freshly_reset_timestamp = some now ∧
      is_freshly_reset now2 (update_session_state now store sid new).2 sid =
        decide (now2 - now < (FRESH_RESET_GRACE_PERIOD_SECONDS : ℤ))) ∧
    ((isGreetingPair new = false ∨ isGreetingPairOpt (storeFind store sid) = true) →
      (update_session_state now store sid new).1.freshly_reset_timestamp = none ∧
      is_freshly_reset now2 (update_session_state now store sid new).2 sid = false) := by
  refine ⟨rfl, storeFind_insert store sid _, ?_, ?_⟩
  · intro hg ho
    have hedge : (isGreetingPair new && !(isGreetingPairOpt (storeFind store sid))) = true := by
      simp [hg, ho]
    have hpair : update_session_state now store sid new =
        ({ new with last_activity := now, freshly_reset_timestamp := some now },
          storeInsert store sid
            { new with last_activity := now, freshly_reset_timestamp := some now }) := by
      simp [update_session_state, hedge]
    constructor
    · rw [hpair]
    · unfold is_freshly_reset
      rw [hpair, storeFind_insert]
      have hg2 : isGreetingPair { new with
          last_activity := now, freshly_reset_timestamp := some now } = true := hg
      simp [hg2]
  · intro ho
    have hedge : (isGreetingPair new && !(isGreetingPairOpt (storeFind store sid))) = false := by
      rcases ho with h | h <;> simp [h]
    have hpair : update_session_state now store sid new =
        ({ new with last_activity := now, freshly_reset_timestamp := none },
          storeInsert store sid
            { new with last_activity := now, freshly_reset_timestamp := none }) := by
      simp [update_session_state, hedge]
    constructor
    · rw [hpair]
    · unfold is_freshly_reset
      rw [hpair, storeFind_insert]

/-- Witness for C9: an edge-triggering update and a non-edge update at
concrete records. -/
theorem C9_update_stamps_witness :
    (update_session_state 50 [("u".toList, staleChatRec)] "u".toList
      { staleChatRec with
        current_state := "start".toList,
        current_handler := "greeting_handler".toList }).1.freshly_reset_timestamp = some 50 ∧
    is_freshly_reset 51 (update_session_state 50 [("u".toList, staleChatRec)] "u".toList
      { staleChatRec with
        current_state := "start".toList,
        current_handler := "greeting_handler".toList }).2 "u".toList = true ∧
    (update_session_state 50 [("u".toList, staleChatRec)] "u".toList
      staleChatRec).1.freshly_reset_timestamp = none ∧
    (update_session_state 50 [("u".toList, staleChatRec)] "u".toList
      staleChatRec).1.last_activity = 50 := by
  have h1 := C9_update_stamps_and_edge_triggers 50 51 [("u".toList, staleChatRec)]
    "u".toList
    { staleChatRec with
      current_state := "start".toList, current_handler := "greeting_handler".toList }
  have h2 := C9_update_stamps_and_edge_triggers 50 51 [("u".toList, staleChatRec)]
    "u".toList staleChatRec
  refine ⟨(h1.2.2.1 (by decide) (by decide)).1, ?_, (h2.2.2.2 (Or.inl (by decide))).1, h2.1⟩
  rw [(h1.2.2.1 (by decide) (by decide)).2]
  decide

/-- `AIHandler._process_user_question`, history maintenance: append the new
entry, then `conversation_history = conversation_history[-10:]` when the
length exceeds 10. -/
def appendHistory (h : List HistEntry) (e : HistEntry) : List HistEntry :=
  let h2 := h ++ [e]
  if h2.length > 10 then h2.drop (h2.length - 10) else h2

/-- The last ten elements (`l[-10:]`). -/
def lastTenH (l : List HistEntry) : List HistEntry := l.drop (l.length - 10)

theorem lastTenH_length_le (l : List HistEntry) : (lastTenH l).length ≤ 10 := by
  simp only [lastTenH, List.length_drop]
  omega

theorem lastTenH_of_le (l : List HistEntry) (h : l.length ≤ 10) : lastTenH l = l := by
  have : l.length - 10 = 0 := by omega
  simp [lastTenH, this]

theorem appendHistory_eq_lastTenH (h : List HistEntry) (e : HistEntry)
    (hh : h.length ≤ 10) : appendHistory h e = lastTenH (h ++ [e]) := by
  unfold appendHistory lastTenH
  by_cases hl : (h ++ [e]).length > 10
  · rw [if_pos hl]
  · rw [if_neg hl]
    simp only [List.length_append, List.length_singleton] at hl
    have : (h ++ [e]).length - 10 = 0 := by
      simp only [List.length_append, List.length_singleton]
      omega
    rw [this, List.drop_zero]

theorem lastTenH_drop (y : List HistEntry) (j : ℕ) (hj : j + 10 ≤ y.length) :
    lastTenH (y.drop j) = lastTenH y := by
  unfold lastTenH
  rw [List.length_drop, List.drop_drop]
  have : j + (y.length - j - 10) = y.length - 10 := by omega
  rw [this]

theorem lastTenH_append_single (x : List HistEntry) (e : HistEntry) :
    lastTenH (lastTenH x ++ [e]) = lastTenH (x ++ [e]) := by
  by_cases hx : x.length ≤ 10
  · rw [lastTenH_of_le x hx]
  · have hle : x.length - 10 ≤ x.length := by omega
    have hsplit : lastTenH x ++ [e] = (x ++ [e]).drop (x.length - 10) := by
      unfold lastTenH
      rw [List.drop_append_of_le_length hle]
    rw [hsplit]
    refine lastTenH_drop (x ++ [e]) (x.length - 10) ?_
    simp only [List.length_append, List.length_singleton]
    omega

theorem foldl_appendHistory_eq (es : List HistEntry) (h : List HistEntry)
    (hh : h.length ≤ 10) :
    List.foldl appendHistory h es = lastTenH (h ++ es) := by
  induction es using List.reverseRecOn with
  | nil =>
      simpa using (lastTenH_of_le h hh).symm
  | append_singleton xs e ih =>
      rw [List.foldl_append, ih, List.foldl_cons, List.foldl_nil,
        appendHistory_eq_lastTenH _ _ (lastTenH_length_le _), lastTenH_append_single,
        List.append_assoc]

/-- **C7.** The conversation history kept by `AIHandler._process_user_question`
never exceeds the cap of 10 entries: each turn appends one
`{user, assistant, timestamp}` entry and drops the oldest entries once the
cap is exceeded, so a history within the cap stays within it, after 11
turns from an empty history exactly the most recent 10 turns remain in
chronological insertion order, and while under the cap the history is the
exact turn sequence. -/
theorem C7_history_capped :
    (∀ (h : List HistEntry) (e : HistEntry), h.length ≤ 10 →
      (appendHistory h e).length ≤ 10) ∧
    (∀ es : List HistEntry, es.length = 11 →
      List.foldl appendHistory [] es = es.tail ∧
      (List.foldl appendHistory [] es).length = 10) ∧
    (∀ es : List HistEntry, es.length ≤ 10 → List.foldl appendHistory [] es = es) := by
  refine ⟨?_, ?_, ?_⟩
  · intro h e hh
    rw [appendHistory_eq_lastTenH h e hh]
    exact lastTenH_length_le _
  · intro es hlen
    have hfold : List.foldl appendHistory [] es = lastTenH es := by
      simpa using foldl_appendHistory_eq es [] (by simp)
    have htail : lastTenH es = es.tail := by
      unfold lastTenH
      rw [hlen]
      exact List.drop_one es
    refine ⟨by rw [hfold, htail], ?_⟩
    rw [hfold, htail, List.length_tail, hlen]
  · intro es hlen
    have hfold : List.foldl appendHistory [] es = lastTenH es := by
      simpa using foldl_appendHistory_eq es [] (by simp)
    rw [hfold, lastTenH_of_le es hlen]

/-- A concrete history entry for the C7 witness. -/
def demoEntry (n : ℕ) : HistEntry :=
  { user := "q".toList, assistant := "a".toList, intent := none, timestamp := (n : ℤ) }

/-- Witness for C7 at a concrete 11-turn sequence. -/
theorem C7_history_capped_witness :
    List.foldl appendHistory [] ((List.range 11).map demoEntry) =
      ((List.range 11).map demoEntry).tail ∧
    (List.foldl appendHistory [] ((List.range 11).map demoEntry)).length = 10 ∧
    (appendHistory (((List.range 10).map demoEntry)) (demoEntry 10)).length ≤ 10 := by
  have h := C7_history_capped
  refine ⟨(h.2.1 _ (by simp)).1, (h.2.1 _ (by simp)).2, h.1 _ _ (by simp)⟩

/-- An outbound message descriptor
(`whatsapp_service.create_text_message(recipient, text)`). -/
structure Outbound where
  recipient : Str
  text : Str
deriving DecidableEq, Repr

/-- Result of invoking a handler method: a returned outbound message or a
raised exception, together with the session store as the handler left it. -/
inductive HandlerOutcome where
  | ok (m : Outbound) (store : Store)
  | err (store : Store)
deriving DecidableEq, Repr

/-- The `AIHandler` methods invoked by the router, as oracles (their
bodies call the AI service and the transport; any of them may raise — in
this repository `_handle_ai_chat_start` raises `AttributeError` on
non-empty messages because `AIService` lacks `_is_swahili`). -/
structure RouterEnv where
  chatStart : SessionRec → Str → Str → Store → HandlerOutcome
  aiChat : SessionRec → Str → Str → Str → Store → HandlerOutcome
  kitReq : SessionRec → Str → Str → Str → Store → HandlerOutcome

/-- The generic apology of `MessageProcessor.process_message`'s handler. -/
def apologyText : Str :=
  "⚠️ Something went wrong. Let me help you with your women\x27s health questions. What would you like to know?".toList

/-- The global commands checked before per-state dispatch. -/
def globalCommands : List Str :=
  ["menu".toList, "start".toList, "hello".toList, "hi".toList]

/-- The Swahili greeting synonyms. -/
def swahiliGreetings : List Str :=
  ["habari".toList, "mambo".toList, "sasa".toList, "jambo".toList]

/-- `MessageProcessor._start_ai_chat`: force the session into
`ai_handler`/`ai_chat`, persist, and hand over to
`AIHandler._handle_ai_chat_start`. -/
def start_ai_chat (env : RouterEnv) (now : ℤ) (store : Store) (s : SessionRec)
    (sid uname orig : Str) : HandlerOutcome :=
  let s1 := { s with
    current_state := "ai_chat".toList, current_handler := "ai_handler".toList,
    user_name := some (if uname = [] then "Guest".toList else uname) }
  let p := update_session_state now store sid s1
  env.chatStart p.1 sid orig p.2

/-- The restart path including the router's own `except` retry: if the
first `_start_ai_chat` raises, the handler is invoked once more. -/
def routeRestart (env : RouterEnv) (now : ℤ) (store : Store) (s : SessionRec)
    (sid uname orig : Str) : HandlerOutcome :=
  match start_ai_chat env now store s sid uname orig with
  | .ok m st => .ok m st
  | .err st => start_ai_chat env now st s sid uname orig

/-- `MessageProcessor._route_to_handler`: global commands and Swahili
greetings restart the AI chat, as do new/`start` sessions, unknown AI
states and unknown handler names; the two enumerated AI states dispatch to
their handlers; any exception in the `try` body falls back to
`_start_ai_chat`.  (The `"user_name" not in state` guard is omitted: every
record built by `get_session_state` carries the key.) -/
def route_to_handler (env : RouterEnv) (now : ℤ) (store : Store) (s : SessionRec)
    (message original sid uname : Str) : HandlerOutcome :=
  let attempt : HandlerOutcome :=
    if message ∈ globalCommands ∨ message ∈ swahiliGreetings then
      start_ai_chat env now store s sid uname original
    else if s.current_state = "start".toList ∨ s.current_handler = [] then
      start_ai_chat env now store s sid uname original
    else if s.current_handler = "ai_handler".toList then
      if s.current_state = "ai_chat".toList then
        env.aiChat s message original sid store
      else if s.current_state = "kit_request_collection".toList then
        env.kitReq s message original sid store
      else start_ai_chat env now store s sid uname original
    else start_ai_chat env now store s sid uname original
  match attempt with
  | .ok m st => .ok m st
  | .err st => start_ai_chat env now st s sid uname original

/-- `MessageProcessor._update_user_info`. -/
def updateUserInfo (s : SessionRec) (sid uname : Str) : SessionRec :=
  let s1 := if uname ≠ [] ∧ ¬ optTruthy s.user_name
    then { s with user_name := some uname } else s
  let s2 := if ¬ optTruthy s1.user_name
    then { s1 with user_name := some "Guest".toList } else s1
  { s2 with phone_number := sid }

/-- The state retrieval and stamping `process_message` performs before
routing: `get_session_state`, `update_session_activity`,
`_update_user_info`, `update_session_state`. -/
def preludeState (now : ℤ) (store : Store) (sid uname : Str) : SessionRec × Store :=
  let p := get_session_state now store sid
  let store2 := update_session_activity now p.2 sid
  update_session_state now store2 sid (updateUserInfo p.1 sid uname)

/-- `MessageProcessor.process_message`: normalize, route, and catch any
escaped exception at the boundary — forcing the session back to
`ai_handler`/`ai_chat` and returning the generic apology. -/
def process_message (env : RouterEnv) (now : ℤ) (store : Store)
    (msgData sid uname : Str) : Outbound × Store :=
  match route_to_handler env now (preludeState now store sid uname).2
      (preludeState now store sid uname).1 (pyLower (pyStrip msgData)) msgData sid uname with
  | .ok m st => (m, st)
  | .err st =>
      let p := get_session_state now st sid
      let s4 := { p.1 with
        current_state := "ai_chat".toList, current_handler := "ai_handler".toList }
      let u := update_session_state now p.2 sid s4
      ({ recipient := sid, text := apologyText }, u.2)

/-- Any `(handler, state)` pair outside the enumerated dispatch reduces to
the restart-AI-chat path. -/
theorem route_unknown_restarts (env : RouterEnv) (now : ℤ) (store : Store)
    (s : SessionRec) (message original sid uname : Str)
    (h : s.current_handler ≠ "ai_handler".toList ∨
      (s.current_state ≠ "ai_chat".toList ∧
       s.current_state ≠ "kit_request_collection".toList)) :
    route_to_handler env now store s message original sid uname =
      routeRestart env now store s sid uname original := by
  unfold route_to_handler routeRestart
  by_cases hglob : message ∈ globalCommands ∨ message ∈ swahiliGreetings
  · rw [if_pos hglob]
  · rw [if_neg hglob]
    by_cases hstart : s.current_state = "start".toList ∨ s.current_handler = []
    · rw [if_pos hstart]
    · rw [if_neg hstart]
      by_cases hai : s.current_handler = "ai_handler".toList
      · rcases h with hh | ⟨hs1, hs2⟩
        · exact absurd hai hh
        · rw [if_pos hai, if_neg hs1, if_neg hs2]
      · rw [if_neg hai]

/-- **C8.** Routing never dead-ends and never lets an exception reach the
transport layer: (a) for every `(current_handler, current_state)` pair not
explicitly enumerated by the dispatch, routing equals the restart-AI-chat
path (handler retried once on failure); (b) whenever routing raises all
the way to the boundary, `process_message` returns the generic apology
text message and the stored session is forced back to
`ai_handler`/`ai_chat` — and by construction `process_message` always
returns an outbound text message. -/
theorem C8_router_never_dead_ends (env : RouterEnv) (now : ℤ) (store : Store)
    (msgData sid uname : Str) :
    ((preludeState now store sid uname).1.current_handler ≠ "ai_handler".toList ∨
      ((preludeState now store sid uname).1.current_state ≠ "ai_chat".toList ∧
       (preludeState now store sid uname).1.current_state ≠ "kit_request_collection".toList) →
      route_to_handler env now (preludeState now store sid uname).2
          (preludeState now store sid uname).1 (pyLower (pyStrip msgData)) msgData sid uname =
        routeRestart env now (preludeState now store sid uname).2
          (preludeState now store sid uname).1 sid uname msgData) ∧
    (∀ st : Store,
      route_to_handler env now (preludeState now store sid uname).2
          (preludeState now store sid uname).1 (pyLower (pyStrip msgData)) msgData sid uname =
        .err st →
      (process_message env now store msgData sid uname).1 =
        { recipient := sid, text := apologyText } ∧
      ∃ rec, storeFind (process_message env now store msgData sid uname).2 sid = some rec ∧
        rec.current_state = "ai_chat".toList ∧
        rec.current_handler = "ai_handler".toList) := by
  constructor
  · intro h
    exact route_unknown_restarts env now _ _ _ msgData sid uname h
  · intro st herr
    unfold process_message
    rw [herr]
    exact ⟨rfl, _, storeFind_insert _ _ _, rfl, rfl⟩

/-- Handlers that always raise. -/
def errEnv : RouterEnv :=
  { chatStart := fun _ _ _ st => .err st,
    aiChat := fun _ _ _ _ st => .err st,
    kitReq := fun _ _ _ _ st => .err st }

/-- A session parked on an unknown `(handler, state)` pair. -/
def faqRec : SessionRec :=
  { staleChatRec with
    current_handler := "faq_handler".toList, current_state := "faq".toList }

/-- Witness for C8: an unknown pair routed through always-raising handlers
still yields the apology text message and a session forced to
`ai_handler`/`ai_chat`. -/
theorem C8_router_never_dead_ends_witness :
    route_to_handler errEnv 100 (preludeState 100 [("u".toList, faqRec)] "u".toList "Ada".toList).2
        (preludeState 100 [("u".toList, faqRec)] "u".toList "Ada".toList).1
        (pyLower (pyStrip "what".toList)) "what".toList "u".toList "Ada".toList =
      routeRestart errEnv 100 (preludeState 100 [("u".toList, faqRec)] "u".toList "Ada".toList).2
        (preludeState 100 [("u".toList, faqRec)] "u".toList "Ada".toList).1
        "u".toList "Ada".toList "what".toList ∧
    (process_message errEnv 100 [("u".toList, faqRec)] "what".toList "u".toList "Ada".toList).1 =
      { recipient := "u".toList, text := apologyText } ∧
    ∃ rec, storeFind
        (process_message errEnv 100 [("u".toList, faqRec)] "what".toList "u".toList
          "Ada".toList).2 "u".toList = some rec ∧
      rec.current_state = "ai_chat".toList ∧ rec.current_handler = "ai_handler".toList := by
  have h := C8_router_never_dead_ends errEnv 100 [("u".toList, faqRec)]
    "what".toList "u".toList "Ada".toList
  have hb := h.2 _ rfl
  exact ⟨h.1 (Or.inl (by decide)), hb.1, hb.2⟩
